import Mathlib

/-!
A verification development for the recursive cluster-tree builder, the
per-cluster projector and the centroid backfill of `dataprep/transform.py`.

The Python functions are shallowly embedded as Lean functions.  Machine
floats are modelled by `ℚ`, per-document vectors by an abstract type `α`,
and the SQLite store by explicit record types.  The scikit-learn calls
(`MiniBatchKMeans.fit_predict`, `silhouette_score`, `PCA.fit_transform`)
are third-party numerical routines; they enter the embedding as oracle
parameters, with `Option`/`Except` results standing for the exceptions the
Python code catches.  The store-accessor helpers imported from
`database.py` (a module whose source is not part of the corpus analysed
here) are modelled from the spec, as indicated on each definition.
-/

/-- Embedding of `classes.ClusterTreeNode` (one namespace; the `namespace`
column is dropped, `top_terms`/label columns are irrelevant to the builder
and omitted).  `child_count` defaults to `0` on insertion, matching the
dataclass default. -/
structure ClusterTreeNode (α : Type) where
  node_id : ℕ
  parent_id : Option ℕ
  depth : ℕ
  doc_count : ℕ
  child_count : ℕ
  centroid : Option α
  sample_doc_ids : List ℕ
  deriving DecidableEq

/-- State touched by the tree builder: the `cluster_tree` rows of one
namespace, plus the journal of document-to-leaf membership writes made via
`update_cluster_tree_assignments` (each entry is one `(page_id, node_id)`
write of `page_vector.cluster_node_id`). -/
structure BuildStore (α : Type) where
  nodes : List (ClusterTreeNode α)
  assigns : List (ℕ × ℕ)
  deriving DecidableEq

/-- Modelled from the spec: `database.get_cluster_tree_max_node_id`; node
ids are allocated as `max(existing node_id) + 1` over the whole store
(spec section 3), so this returns the maximum existing node id, `0` when
the table is empty. -/
def get_cluster_tree_max_node_id {α : Type} (st : BuildStore α) : ℕ :=
  st.nodes.foldr (fun nd m => max nd.node_id m) 0

/-- Modelled from the spec: `database.insert_cluster_tree_node` appends a
new row to `cluster_tree`. -/
def insert_cluster_tree_node {α : Type} (st : BuildStore α) (nd : ClusterTreeNode α) :
    BuildStore α :=
  ⟨st.nodes ++ [nd], st.assigns⟩

/-- Embedding of the inline SQL `UPDATE cluster_tree SET centroid = ?
WHERE node_id = ?` of `_recursive_cluster_node` (transform.py lines
572-575). -/
def set_node_centroid {α : Type} (st : BuildStore α) (nid : ℕ) (c : α) : BuildStore α :=
  ⟨st.nodes.map (fun nd => if nd.node_id = nid then { nd with centroid := some c } else nd),
   st.assigns⟩

/-- Modelled from the spec: `database.update_cluster_tree_child_count`
sets the `child_count` column of one node (spec section 4.3, last step of
a split). -/
def update_cluster_tree_child_count {α : Type} (st : BuildStore α) (nid cnt : ℕ) :
    BuildStore α :=
  ⟨st.nodes.map (fun nd => if nd.node_id = nid then { nd with child_count := cnt } else nd),
   st.assigns⟩

/-- Modelled from the spec: `database.update_cluster_tree_assignments`
persists the membership of the given pages in the given (leaf) node, i.e.
sets `page_vector.cluster_node_id` for each page.  Each call is recorded
as one `(page_id, node_id)` journal entry per page. -/
def update_cluster_tree_assignments {α : Type} (st : BuildStore α) (nid : ℕ)
    (pages : List ℕ) : BuildStore α :=
  ⟨st.nodes, st.assigns ++ pages.map (fun p => (p, nid))⟩

/-- Oracle bundling the scikit-learn calls made by one builder run:
`kmeans k vecs` is `MiniBatchKMeans(n_clusters=k, random_state=42, ...)
.fit_predict(vecs)`, `kmeans_centroid k vecs` is
`kmeans.cluster_centers_.mean(axis=0)`, and `silhouette vecs labels` is
`fast_silhouette_score(vecs, labels)` with `none` standing for a raised
exception. -/
structure ClusterOracle (α : Type) where
  kmeans : ℕ → List α → List ℕ
  kmeans_centroid : ℕ → List α → α
  silhouette : List α → List ℕ → Option ℚ

/-- Shape guarantees scikit-learn's `fit_predict` gives for the arguments
the builder actually passes (`k ≥ 2`): one label per sample, each label
below `k`. -/
def OracleValid {α : Type} (o : ClusterOracle α) : Prop :=
  ∀ k vecs, 2 ≤ k →
    (o.kmeans k vecs).length = vecs.length ∧ ∀ l ∈ o.kmeans k vecs, l < k

/-- Embedding of the boolean-mask selection `[xs[i] for i in
range(len(xs)) if cluster_labels[i] == cluster_id]` (and the numpy mask
`xs[cluster_mask]`) used in `_recursive_cluster_node`. -/
def select_cluster {β : Type} (xs : List β) (cluster_labels : List ℕ) (cluster_id : ℕ) :
    List β :=
  ((xs.zip cluster_labels).filter (fun xl => xl.2 = cluster_id)).map Prod.fst

mutual

/-- Embedding of `_recursive_cluster_node` (transform.py lines 498-653).
Returns the updated store and the function's `descendant_nodes_processed`
return value.  `k` is `min(max_k, math.ceil(doc_count / leaf_target))`;
the `try` block around the silhouette computation is the `match` on
`o.silhouette`: on `some`, the centroid is persisted and the threshold is
checked; on `none` (an exception) control falls through to the child-
processing loop with no centroid written, exactly as the Python `except`
handler does. -/
def recursive_cluster_node {α : Type} (o : ClusterOracle α)
    (leaf_target max_k max_depth : ℕ) (min_silhouette_threshold : ℚ)
    (page_ids : List ℕ) (page_vectors : List α)
    (node_id depth doc_count : ℕ) (st : BuildStore α) : BuildStore α × ℕ :=
  if _h : doc_count ≤ leaf_target ∨ max_depth ≤ depth then (st, 1)
  else
    let k := min max_k ((doc_count + leaf_target - 1) / leaf_target)
    if k ≤ 1 then (st, 1)
    else
      let cluster_labels := o.kmeans k page_vectors
      match o.silhouette page_vectors cluster_labels with
      | some silhouette_avg =>
          let st1 := set_node_centroid st node_id (o.kmeans_centroid k page_vectors)
          if silhouette_avg < min_silhouette_threshold then (st1, 1)
          else
            let res := process_clusters o leaf_target max_k max_depth
              min_silhouette_threshold page_ids page_vectors cluster_labels
              node_id depth (List.range k) st1 0 0
            (update_cluster_tree_child_count res.1 node_id res.2.1, res.2.2)
      | none =>
          let res := process_clusters o leaf_target max_k max_depth
            min_silhouette_threshold page_ids page_vectors cluster_labels
            node_id depth (List.range k) st 0 0
          (update_cluster_tree_child_count res.1 node_id res.2.1, res.2.2)
termination_by (max_depth + 1 - depth, 0)

/-- Embedding of the `for cluster_id in range(k)` loop of
`_recursive_cluster_node` (transform.py lines 589-643): threads the store
and the `child_nodes_processed` / `descendant_nodes_processed`
accumulators through the remaining cluster ids, creating a child node for
each non-empty sub-cluster, recursing into it, and persisting the
sub-cluster's membership when the recursive call returned exactly 1. -/
def process_clusters {α : Type} (o : ClusterOracle α)
    (leaf_target max_k max_depth : ℕ) (min_silhouette_threshold : ℚ)
    (page_ids : List ℕ) (page_vectors : List α) (cluster_labels : List ℕ)
    (node_id depth : ℕ) (cs : List ℕ) (st : BuildStore α)
    (child_nodes_processed descendant_nodes_processed : ℕ) :
    BuildStore α × ℕ × ℕ :=
  match cs with
  | [] => (st, child_nodes_processed, descendant_nodes_processed)
  | cluster_id :: rest =>
      let cluster_page_ids := select_cluster page_ids cluster_labels cluster_id
      let cluster_vectors := select_cluster page_vectors cluster_labels cluster_id
      let cluster_size := cluster_page_ids.length
      if cluster_size = 0 then
        process_clusters o leaf_target max_k max_depth min_silhouette_threshold
          page_ids page_vectors cluster_labels node_id depth rest st
          child_nodes_processed descendant_nodes_processed
      else
        let child_node_id := get_cluster_tree_max_node_id st + 1
        let child_node : ClusterTreeNode α :=
          ⟨child_node_id, some node_id, depth + 1, cluster_size, 0, none,
            cluster_page_ids.take 10⟩
        let st1 := insert_cluster_tree_node st child_node
        let res := recursive_cluster_node o leaf_target max_k max_depth
          min_silhouette_threshold cluster_page_ids cluster_vectors
          child_node_id (depth + 1) cluster_size st1
        let st2 := if res.2 = 1 then
            update_cluster_tree_assignments res.1 child_node_id cluster_page_ids
          else res.1
        process_clusters o leaf_target max_k max_depth min_silhouette_threshold
          page_ids page_vectors cluster_labels node_id depth rest st2
          (child_nodes_processed + 1) (descendant_nodes_processed + 1 + res.2)
termination_by (max_depth - depth, cs.length + 1)

end

/-- Embedding of `run_recursive_clustering` (transform.py lines 420-495),
the spec's `build_tree`: `pages_and_vectors` is the list of
`(page_id, reduced_vector)` pairs returned by
`get_page_reduced_vectors`.  Returns the updated store and the reported
total node count. -/
def run_recursive_clustering {α : Type} (o : ClusterOracle α)
    (leaf_target max_k max_depth : ℕ) (min_silhouette_threshold : ℚ)
    (pages_and_vectors : List (ℕ × α)) (st : BuildStore α) : BuildStore α × ℕ :=
  let doc_count := pages_and_vectors.length
  if doc_count = 0 then (st, 0)
  else if doc_count < max_k then (st, 0)
  else
    let page_ids := pages_and_vectors.map Prod.fst
    let page_vectors := pages_and_vectors.map Prod.snd
    let root_node_id := get_cluster_tree_max_node_id st + 1
    let st1 := insert_cluster_tree_node st ⟨root_node_id, none, 0, doc_count, 0, none, []⟩
    recursive_cluster_node o leaf_target max_k max_depth min_silhouette_threshold
      page_ids page_vectors root_node_id 0 doc_count st1

/-- Embedding of `vectors.shape[1]` for a row-per-document matrix held as
a list of equal-length rows. -/
def feature_width (vectors : List (List ℚ)) : ℕ := (vectors.headD []).length

/-- Embedding of the per-cluster body of `run_pca_per_cluster`
(transform.py lines 203-222): for one cluster's stacked `vectors`, if the
feature width is below `n_components` the available features are copied
into a zero matrix (`three_space_vectors[:, :w] = vectors[:,
:n_components]`); otherwise `PCA(n_components).fit_transform` is
attempted, and on a `ValueError` (`pca_fit_transform = .error ()`) the
same zero-padding copy is used as the fallback.  For rows of uniform
width `w`, the numpy assignment writes `row.take n_components` into the
first `min w n_components` columns of a zero row. -/
def run_pca_per_cluster_vectors (pca_fit_transform : Except Unit (List (List ℚ)))
    (n_components : ℕ) (vectors : List (List ℚ)) : List (List ℚ) :=
  let w := feature_width vectors
  if w < n_components then
    vectors.map (fun r => r.take n_components ++ List.replicate (n_components - w) 0)
  else
    match pca_fit_transform with
    | .ok t => t
    | .error _ =>
        vectors.map (fun r => r.take n_components ++ List.replicate (n_components - w) 0)

/-- Embedding of `_simple_geometric_projection` (transform.py lines
383-406): fixed placements for 2 and 3 points built by writing into zero
rows, with PCA (`pca_fallback`) for any other size. -/
def simple_geometric_projection (pca_fallback : List (List ℚ) → List (List ℚ))
    (n_components : ℕ) (vectors : List (List ℚ)) : List (List ℚ) :=
  if vectors.length = 2 then
    [(List.replicate n_components (0 : ℚ)).set 0 (-1),
     (List.replicate n_components (0 : ℚ)).set 0 1]
  else if vectors.length = 3 then
    [(List.replicate n_components (0 : ℚ)).set 0 (-1),
     (List.replicate n_components (0 : ℚ)).set 0 1,
     (List.replicate n_components (0 : ℚ)).set 1 1]
  else pca_fallback vectors

/-- Embedding of `fast_silhouette_score` (transform.py lines 409-417).
`np.random.choice(len(X), sample_size, replace=False)` draws from numpy's
global (unseeded) generator; the drawn index list enters the embedding as
the `sample_idx` parameter, and `silhouette_score` (scikit-learn) as a
function parameter returning `.ok score` for a normal return and
`.error ()` for a raised exception (sklearn raises `ValueError` when the
given labels hold fewer than 2 distinct values).  The Python function has
no handler of its own, so a raise propagates to the caller, exactly as
the `Except` value does here.  When `len(X) > sample_size` the scorer is
invoked on `X[idx]` and `labels[idx]`, otherwise on the full data. -/
def fast_silhouette_score {α β : Type} [Inhabited α] [Inhabited β]
    (silhouette_score : List α → List β → Except Unit ℚ) (sample_idx : List ℕ)
    (X : List α) (labels : List β) (sample_size : ℕ) : Except Unit ℚ :=
  if sample_size < X.length then
    silhouette_score (sample_idx.map fun i => X.getD i default)
      (sample_idx.map fun i => labels.getD i default)
  else
    silhouette_score X labels

/-- Embedding of one `page_vector` row as read by the centroid backfill. -/
structure PageVectorRecord (α : Type) where
  page_id : ℕ
  reduced_vector : Option α
  cluster_node_id : Option ℕ
  deriving DecidableEq

/-- State touched by `compute_missing_centroids`: the `cluster_tree` rows
and the `page_vector` rows of one namespace. -/
structure CentroidStore (α : Type) where
  nodes : List (ClusterTreeNode α)
  pages : List (PageVectorRecord α)
  deriving DecidableEq

/-- The exact error message raised by `compute_missing_centroids` when a
centroid-missing node has children (transform.py lines 708-709). -/
def assumption_violated_msg (node_id : ℕ) : String :=
  "Assumption violated: Node " ++ toString node_id ++
    " is missing a centroid but has children. " ++
    "This function only works for leaf nodes (nodes with no children)."

/-- Embedding of `compute_missing_centroids` (transform.py lines
656-779).  `mean` is `np.array(vectors).mean(axis=0)`.  Returns the
resulting store together with `.ok count` for a normal return and
`.error msg` for the raised `ValueError`; the store component of an
error result is the untouched input store, since the function performs no
writes before the validation loop. -/
def compute_missing_centroids {α : Type} [DecidableEq α] (mean : List α → α)
    (st : CentroidStore α) : CentroidStore α × Except String ℕ :=
  let nodes_missing_centroids := st.nodes.filter (fun nd => nd.centroid = none)
  if nodes_missing_centroids.isEmpty then (st, .ok 0)
  else
    let nodes_with_children :=
      (st.nodes.filter (fun nd => 0 < nd.child_count)).map (fun nd => nd.node_id)
    match nodes_missing_centroids.find? (fun nd => nd.node_id ∈ nodes_with_children) with
    | some offender => (st, .error (assumption_violated_msg offender.node_id))
    | none =>
        let member_vectors := fun nid => st.pages.filterMap (fun p =>
          if p.cluster_node_id = some nid then p.reduced_vector else none)
        let centroid_updates := nodes_missing_centroids.filterMap (fun nd =>
          let vs := member_vectors nd.node_id
          if vs.isEmpty then none else some (nd.node_id, mean vs))
        let new_nodes := st.nodes.map (fun nd =>
          match centroid_updates.find? (fun u => u.1 = nd.node_id) with
          | some u => { nd with centroid := some u.2 }
          | none => nd)
        (⟨new_nodes, st.pages⟩, .ok centroid_updates.length)

/-- Concrete oracle used to evaluate the builder on small inputs: the
label of a vector (here just a natural number token) is its value modulo
`k`, the sub-centroid mean is a constant, and the silhouette computation
succeeds with score `1`. -/
def demo_oracle : ClusterOracle ℕ :=
  ⟨fun k vecs => vecs.map (· % k), fun _ _ => 0, fun _ _ => some 1⟩

/-- Same labelling as `demo_oracle` but the silhouette computation raises
(`none`), exercising the `except` path of `_recursive_cluster_node`. -/
def demo_oracle_fail : ClusterOracle ℕ :=
  ⟨fun k vecs => vecs.map (· % k), fun _ _ => 0, fun _ _ => none⟩

/-- Input matrix with 10001 rows (one more than the sampling bound of
`fast_silhouette_score`), each row abstracted to a single rational; the
row values are irrelevant to the counterexample, which turns on the
labels. -/
def c7_vec_list : List ℚ := List.replicate 10000 0 ++ [1]

/-- Cluster labels accompanying `c7_vec_list`, one per row, with a single
outlier: rows 0..9999 carry label `0` and row 10000 carries label `1`.
A 10000-row draw that misses row 10000 samples only one distinct label. -/
def c7_labels : List ℕ := List.replicate 10000 0 ++ [1]

/-- Abstraction of scikit-learn's `silhouette_score` at the arguments
arising here: it raises a `ValueError` whenever the sampled labels hold
fewer than 2 distinct values (its documented precondition is
`2 <= n_labels <= n_samples - 1`), and otherwise returns some score,
whose exact value is irrelevant to the counterexample and is taken to be
`0`. -/
def c7_sil : List ℚ → List ℕ → Except Unit ℚ :=
  fun _ ls => if ls.dedup.length < 2 then .error () else .ok 0

/-- One admissible draw of `np.random.choice(10001, 10000,
replace=False)`: the first 10000 indices. -/
def c7_idx_a : List ℕ := List.range 10000

/-- Another admissible draw of the same size: index 10000 followed by the
first 9999 indices. -/
def c7_idx_b : List ℕ := 10000 :: List.range 9999

/-- Skeleton of the stored tree: the `(node_id, parent_id)` pairs of the
rows, in storage order.  Centroid and count updates leave it unchanged;
only inserts extend it. -/
def skel {α : Type} (st : BuildStore α) : List (ℕ × Option ℕ) :=
  st.nodes.map (fun nd => (nd.node_id, nd.parent_id))

/-- Maximum node id recorded in a skeleton (`0` when empty). -/
def skel_max (sk : List (ℕ × Option ℕ)) : ℕ :=
  sk.foldr (fun s m => max s.1 m) 0

/-- Invariant established by one `_recursive_cluster_node` call that
started on store `st` and returned `(st', r)`, for a node `node_id`
holding `page_ids`: the assignment journal grows by a block `dl` and the
skeleton by a block `sk` of fresh ids; `r = 1` exactly when no node was
created; a non-leaf return covers `page_ids` exactly once in `dl`; every
journal entry targets a fresh node no new node points to as parent;
non-empty growth contains a direct child of `node_id`; new parents stay
inside the new block; and every new node nothing points to received a
journal entry. -/
def NodeOut {α : Type} (st st' : BuildStore α) (r : ℕ) (page_ids : List ℕ)
    (node_id : ℕ) : Prop :=
  ∃ dl sk_new,
    st'.assigns = st.assigns ++ dl ∧
    skel st' = skel st ++ sk_new ∧
    (∀ s ∈ sk_new, get_cluster_tree_max_node_id st < s.1 ∧
      s.1 ≤ get_cluster_tree_max_node_id st') ∧
    get_cluster_tree_max_node_id st ≤ get_cluster_tree_max_node_id st' ∧
    1 ≤ r ∧
    (r = 1 ↔ sk_new = []) ∧
    (r = 1 → dl = []) ∧
    (r ≠ 1 → List.Perm (dl.map Prod.fst) page_ids) ∧
    (∀ pm ∈ dl, pm.2 ∈ sk_new.map Prod.fst ∧ ∀ s ∈ sk_new, s.2 ≠ some pm.2) ∧
    (sk_new ≠ [] → ∃ s ∈ sk_new, s.2 = some node_id) ∧
    (∀ s ∈ sk_new, s.2 = some node_id ∨ ∃ t ∈ sk_new, s.2 = some t.1) ∧
    (∀ t ∈ sk_new, (∀ s ∈ sk_new, s.2 ≠ some t.1) → ∃ p, (p, t.1) ∈ dl)

/-- Invariant established by the child-processing loop threading store
`st` and accumulators `(childAcc, descAcc)` into `(st', childAcc',
descAcc')` over the remaining cluster ids `cs`: as `NodeOut`, with the
journal block covering exactly the members of the clusters in `cs`, and
the descendant counter advancing by at least 2 as soon as some cluster in
`cs` is non-empty. -/
def PcOut {α : Type} (st st' : BuildStore α)
    (childAcc descAcc childAcc' descAcc' : ℕ) (cs : List ℕ)
    (page_ids cluster_labels : List ℕ) (node_id : ℕ) : Prop :=
  ∃ dl sk_new,
    st'.assigns = st.assigns ++ dl ∧
    skel st' = skel st ++ sk_new ∧
    (∀ s ∈ sk_new, get_cluster_tree_max_node_id st < s.1 ∧
      s.1 ≤ get_cluster_tree_max_node_id st') ∧
    get_cluster_tree_max_node_id st ≤ get_cluster_tree_max_node_id st' ∧
    childAcc ≤ childAcc' ∧ descAcc ≤ descAcc' ∧
    List.Perm (dl.map Prod.fst)
      ((cs.map (fun c => select_cluster page_ids cluster_labels c)).flatten) ∧
    ((∃ c ∈ cs, select_cluster page_ids cluster_labels c ≠ []) →
      sk_new ≠ [] ∧ descAcc + 2 ≤ descAcc') ∧
    (∀ pm ∈ dl, pm.2 ∈ sk_new.map Prod.fst ∧ ∀ s ∈ sk_new, s.2 ≠ some pm.2) ∧
    (sk_new ≠ [] → ∃ s ∈ sk_new, s.2 = some node_id) ∧
    (∀ s ∈ sk_new, s.2 = some node_id ∨ ∃ t ∈ sk_new, s.2 = some t.1) ∧
    (∀ t ∈ sk_new, (∀ s ∈ sk_new, s.2 ≠ some t.1) → ∃ p, (p, t.1) ∈ dl)

lemma list_getD_replicate {γ : Type} (a d : γ) :
    ∀ n i, i < n → (List.replicate n a).getD i d = a := by
  intro n
  induction n with
  | zero => intro i h; omega
  | succ m ih =>
      intro i h
      cases i with
      | zero => simp [List.replicate_succ]
      | succ j => simpa [List.replicate_succ] using ih j (by omega)

lemma list_dedup_replicate_succ {γ : Type} [DecidableEq γ] (a : γ) :
    ∀ n, (List.replicate (n + 1) a).dedup = [a] := by
  intro n
  induction n with
  | zero => simp
  | succ m ih =>
      rw [List.replicate_succ,
        List.dedup_cons_of_mem (by simp [List.mem_replicate])]
      exact ih

/-- Claim C9: if the number of documents with reduced vectors is below
`max_k` (including zero), `run_recursive_clustering` is a no-op returning
0: the store is unchanged, nothing is inserted or assigned, and no
exception is raised. -/
theorem c9_insufficient_data_noop {α : Type} (o : ClusterOracle α)
    (leaf_target max_k max_depth : ℕ) (min_silhouette_threshold : ℚ)
    (pages_and_vectors : List (ℕ × α)) (st : BuildStore α)
    (h : pages_and_vectors.length < max_k) :
    run_recursive_clustering o leaf_target max_k max_depth min_silhouette_threshold
      pages_and_vectors st = (st, 0) := by
  rcases Nat.eq_zero_or_pos pages_and_vectors.length with h0 | h0
  · simp [run_recursive_clustering, h0]
  · have h0' : ¬ pages_and_vectors.length = 0 := by omega
    simp [run_recursive_clustering, h0', h]

/-- Witness for C9: a namespace with no reduced vectors and `max_k = 50`
is a no-op returning 0. -/
theorem c9_insufficient_data_noop_witness :
    ([] : List (ℕ × ℕ)).length < 50 ∧
    run_recursive_clustering demo_oracle 50 50 10 (1/10) ([] : List (ℕ × ℕ)) ⟨[], []⟩ =
      (⟨[], []⟩, 0) :=
  ⟨by decide, c9_insufficient_data_noop demo_oracle 50 50 10 (1/10) [] ⟨[], []⟩ (by decide)⟩

/-- Claim C10: for a cluster whose feature width `w` is strictly below
`target_dim`, the per-cluster projector does not fail: every document
receives a `target_dim`-wide vector whose first `w` entries are its
available features and whose remaining entries are zero, whatever the PCA
oracle would have done. -/
theorem c10_zero_padding_when_few_features
    (pca_fit_transform : Except Unit (List (List ℚ))) (n_components w : ℕ)
    (vectors : List (List ℚ)) (hw : ∀ r ∈ vectors, r.length = w)
    (hfw : feature_width vectors = w) (hlt : w < n_components) :
    run_pca_per_cluster_vectors pca_fit_transform n_components vectors =
      vectors.map (fun r => r ++ List.replicate (n_components - w) 0) ∧
    ∀ row ∈ run_pca_per_cluster_vectors pca_fit_transform n_components vectors,
      row.length = n_components := by
  have hmain : run_pca_per_cluster_vectors pca_fit_transform n_components vectors =
      vectors.map (fun r => r ++ List.replicate (n_components - w) 0) := by
    simp only [run_pca_per_cluster_vectors.eq_def, hfw]
    rw [if_pos hlt]
    refine List.map_congr_left ?_
    intro r hr
    rw [List.take_of_length_le (by rw [hw r hr]; omega)]
  refine ⟨hmain, ?_⟩
  intro row hrow
  rw [hmain] at hrow
  obtain ⟨r, hr, rfl⟩ := List.mem_map.mp hrow
  have := hw r hr
  simp [this]
  omega

/-- Witness for C10: a 1-document cluster with 2 features projected to 3
dimensions is zero-padded to `[1, 2, 0]`. -/
theorem c10_zero_padding_when_few_features_witness :
    (∀ r ∈ [[(1 : ℚ), 2]], r.length = 2) ∧ feature_width [[(1 : ℚ), 2]] = 2 ∧ 2 < 3 ∧
    run_pca_per_cluster_vectors (.error ()) 3 [[(1 : ℚ), 2]] =
      [[(1 : ℚ), 2]].map (fun r => r ++ List.replicate (3 - 2) 0) :=
  ⟨by decide, by decide, by decide,
    (c10_zero_padding_when_few_features (.error ()) 3 2 [[(1 : ℚ), 2]]
      (by decide) (by decide) (by decide)).1⟩

/-- Claim C3 counterexample: a 2-document leaf cluster with 3 available
features, projected to 3-D by `run_pca_per_cluster` with the PCA call
failing (as `PCA(n_components=3)` does on 2 samples), yields each
document's own first 3 feature values — not the fixed coordinates
`(-1,0,0)` and `(1,0,0)`, and not independent of the vector values. -/
theorem c3_two_point_cluster_not_fixed_coords :
    run_pca_per_cluster_vectors (.error ()) 3 [[5, 7, 9], [2, 4, 6]] =
      [[5, 7, 9], [2, 4, 6]] ∧
    ([[(5 : ℚ), 7, 9], [2, 4, 6]] : List (List ℚ)) ≠ [[-1, 0, 0], [1, 0, 0]] := by
  constructor
  · simp [run_pca_per_cluster_vectors.eq_def, feature_width]
  · decide

/-- Claim C3 amended: the deterministic fixed placement of a 2-point
cluster at `(-1,0,0)` and `(1,0,0)` is implemented only in the helper
`_simple_geometric_projection`, which `run_pca_per_cluster` never calls;
in `run_pca_per_cluster` itself a 2-document cluster with feature width
at least 3 goes through the PCA branch and, when PCA raises, each
document receives the first 3 components of its own reduced vector. -/
theorem c3_amended_two_point_projection (pca_fallback : List (List ℚ) → List (List ℚ))
    (v1 v2 : List ℚ) (h3 : 3 ≤ v1.length) :
    simple_geometric_projection pca_fallback 3 [v1, v2] = [[-1, 0, 0], [1, 0, 0]] ∧
    run_pca_per_cluster_vectors (.error ()) 3 [v1, v2] = [v1.take 3, v2.take 3] := by
  constructor
  · simp [simple_geometric_projection]
  · have hfw : feature_width [v1, v2] = v1.length := by simp [feature_width]
    have hnlt : ¬ v1.length < 3 := by omega
    simp only [run_pca_per_cluster_vectors.eq_def, hfw]
    rw [if_neg hnlt]
    have h0 : 3 - v1.length = 0 := by omega
    simp [h0]

/-- Witness for the amended C3: on the concrete vectors `[5,7,9]` and
`[2,4,6]`, the unused helper gives the fixed coordinates while the live
projector path gives the vectors themselves. -/
theorem c3_amended_two_point_projection_witness :
    3 ≤ ([(5 : ℚ), 7, 9] : List ℚ).length ∧
    simple_geometric_projection id 3 [[(5 : ℚ), 7, 9], [2, 4, 6]] = [[-1, 0, 0], [1, 0, 0]] ∧
    run_pca_per_cluster_vectors (.error ()) 3 [[(5 : ℚ), 7, 9], [2, 4, 6]] =
      [[(5 : ℚ), 7, 9].take 3, [2, 4, 6].take 3] :=
  ⟨by decide,
    (c3_amended_two_point_projection id [5, 7, 9] [2, 4, 6] (by decide)).1,
    (c3_amended_two_point_projection id [5, 7, 9] [2, 4, 6] (by decide)).2⟩

/-- Claim C7 counterexample: for a node with 10001 points (above the
10000-point sampling bound), the quality-gate outcome of
`fast_silhouette_score` is not a function of the data and labels alone.
With a single outlier label (row 10000 labelled 1, all others 0), two
admissible draws of the unseeded `np.random.choice` — both of length
10000, duplicate-free and in range — sample 1 and 2 distinct labels
respectively, so scikit-learn's scorer raises its documented
single-label `ValueError` for the first draw and returns a score for the
second: two runs over identical store contents with identical parameters
need not take the same quality-gate path. -/
theorem c7_sampling_nondeterminism :
    10000 < c7_vec_list.length ∧
    c7_labels.length = c7_vec_list.length ∧
    c7_idx_a.length = 10000 ∧ c7_idx_b.length = 10000 ∧
    c7_idx_a.Nodup ∧ c7_idx_b.Nodup ∧
    (∀ i ∈ c7_idx_a, i < c7_vec_list.length) ∧
    (∀ i ∈ c7_idx_b, i < c7_vec_list.length) ∧
    (c7_idx_a.map fun i => c7_labels.getD i default).dedup.length = 1 ∧
    (c7_idx_b.map fun i => c7_labels.getD i default).dedup.length = 2 ∧
    fast_silhouette_score c7_sil c7_idx_a c7_vec_list c7_labels 10000 = .error () ∧
    fast_silhouette_score c7_sil c7_idx_b c7_vec_list c7_labels 10000 = .ok 0 ∧
    fast_silhouette_score c7_sil c7_idx_a c7_vec_list c7_labels 10000 ≠
      fast_silhouette_score c7_sil c7_idx_b c7_vec_list c7_labels 10000 := by
  have hlen : c7_vec_list.length = 10001 := by
    rw [c7_vec_list, List.length_append, List.length_replicate, List.length_singleton]
  have hcond : 10000 < c7_vec_list.length := by omega
  have hlab : ∀ i < 10000, c7_labels.getD i default = 0 := by
    intro i hi
    rw [c7_labels, List.getD_append _ _ _ _ (by rw [List.length_replicate]; omega),
      list_getD_replicate _ _ _ _ hi]
  have hlab10000 : c7_labels.getD 10000 default = 1 := by
    rw [c7_labels, List.getD_append_right _ _ _ _ (by rw [List.length_replicate]),
      List.length_replicate]
    norm_num
  have hls_a : (c7_idx_a.map fun i => c7_labels.getD i default) =
      List.replicate 10000 0 := by
    have hmem : ∀ b ∈ (c7_idx_a.map fun i => c7_labels.getD i default), b = 0 := by
      intro b hb
      obtain ⟨i, hi, rfl⟩ := List.mem_map.mp hb
      rw [c7_idx_a, List.mem_range] at hi
      exact hlab i hi
    rw [List.eq_replicate_of_mem hmem]
    rw [List.length_map, c7_idx_a, List.length_range]
  have htail_b : ((List.range 9999).map fun i => c7_labels.getD i default) =
      List.replicate 9999 0 := by
    have hmem : ∀ b ∈ ((List.range 9999).map fun i => c7_labels.getD i default),
        b = 0 := by
      intro b hb
      obtain ⟨i, hi, rfl⟩ := List.mem_map.mp hb
      rw [List.mem_range] at hi
      exact hlab i (by omega)
    rw [List.eq_replicate_of_mem hmem]
    rw [List.length_map, List.length_range]
  have hls_b : (c7_idx_b.map fun i => c7_labels.getD i default) =
      1 :: List.replicate 9999 0 := by
    rw [c7_idx_b, List.map_cons, hlab10000, htail_b]
  have hd_a : (c7_idx_a.map fun i => c7_labels.getD i default).dedup.length = 1 := by
    rw [hls_a, list_dedup_replicate_succ 0 9999]
    rfl
  have hd_b : (c7_idx_b.map fun i => c7_labels.getD i default).dedup.length = 2 := by
    rw [hls_b,
      List.dedup_cons_of_not_mem (by intro hm; rw [List.mem_replicate] at hm; omega),
      list_dedup_replicate_succ 0 9998]
    rfl
  have hres_a : fast_silhouette_score c7_sil c7_idx_a c7_vec_list c7_labels 10000 =
      .error () := by
    rw [fast_silhouette_score, if_pos hcond]
    simp only [c7_sil]
    rw [if_pos (by rw [hd_a]; omega)]
  have hres_b : fast_silhouette_score c7_sil c7_idx_b c7_vec_list c7_labels 10000 =
      .ok 0 := by
    rw [fast_silhouette_score, if_pos hcond]
    simp only [c7_sil]
    rw [if_neg (by rw [hd_b]; omega)]
  refine ⟨hcond, ?_, ?_, ?_, ?_, ?_, ?_, ?_, hd_a, hd_b, hres_a, hres_b, ?_⟩
  · rw [c7_labels, c7_vec_list, List.length_append, List.length_append]
    simp only [List.length_replicate, List.length_singleton]
  · rw [c7_idx_a, List.length_range]
  · rw [c7_idx_b, List.length_cons, List.length_range]
  · rw [c7_idx_a]
    exact List.nodup_range _
  · rw [c7_idx_b]
    exact List.nodup_cons.mpr ⟨by rw [List.mem_range]; omega, List.nodup_range _⟩
  · intro i hi
    rw [c7_idx_a, List.mem_range] at hi
    omega
  · intro i hi
    rw [c7_idx_b, List.mem_cons, List.mem_range] at hi
    omega
  · rw [hres_a, hres_b]
    intro hcon
    cases hcon

/-- Claim C7 amended: with the fixed k-means seed the builder is
deterministic provided every node stays within the 10000-point quality
sampling bound — below the bound `fast_silhouette_score` ignores the
random draw entirely, invoking the scorer on the full data, so its
outcome (score or raised exception alike) does not depend on the state
of the unseeded generator. -/
theorem c7_amended_deterministic_within_sample_bound {α β : Type}
    [Inhabited α] [Inhabited β]
    (silhouette_score : List α → List β → Except Unit ℚ)
    (idx1 idx2 : List ℕ) (X : List α) (labels : List β) (sample_size : ℕ)
    (h : X.length ≤ sample_size) :
    fast_silhouette_score silhouette_score idx1 X labels sample_size =
      fast_silhouette_score silhouette_score idx2 X labels sample_size := by
  rw [fast_silhouette_score, fast_silhouette_score, if_neg (by omega), if_neg (by omega)]

/-- Witness for the amended C7: a 3-point node is below the default
10000-point bound, and any two draws give the same outcome. -/
theorem c7_amended_deterministic_within_sample_bound_witness :
    ([(1 : ℚ), 2, 3] : List ℚ).length ≤ 10000 ∧
    fast_silhouette_score c7_sil [0] [(1 : ℚ), 2, 3] [0, 0, 0] 10000 =
      fast_silhouette_score c7_sil [1, 2] [(1 : ℚ), 2, 3] [0, 0, 0] 10000 :=
  ⟨by decide,
    c7_amended_deterministic_within_sample_bound c7_sil [0] [1, 2] [(1 : ℚ), 2, 3]
      [0, 0, 0] 10000 (by decide)⟩

/-- Claim C2: on a store holding two documents with `leaf_target = 1`,
`max_k = 2`, `max_depth = 5` and threshold `0`, the build creates exactly
3 nodes (a root and two leaf children) but `run_recursive_clustering`
returns 4: each child is counted once at creation and again through its
recursive return value, and the node itself is never counted, so the
return value is not the total number of nodes created (the claim's
`1 + c` for `c` leaf children). -/
theorem c2_count_at_two_leaf_children :
    (run_recursive_clustering demo_oracle 1 2 5 0 [(101, 0), (202, 1)] ⟨[], []⟩).2 = 4 ∧
    (run_recursive_clustering demo_oracle 1 2 5 0 [(101, 0), (202, 1)]
      ⟨[], []⟩).1.nodes.length = 3 := by
  constructor <;>
  · simp [run_recursive_clustering, recursive_cluster_node, process_clusters,
      demo_oracle, select_cluster, insert_cluster_tree_node,
      get_cluster_tree_max_node_id, set_node_centroid,
      update_cluster_tree_child_count, update_cluster_tree_assignments,
      List.range_succ]
    norm_num

/-- Claim C1: on the same two-document store, with none of the hard
stopping conditions applying (`doc_count = 2 > leaf_target = 1`,
`depth = 0 < max_depth = 5`, `k = 2 > 1`), a silhouette computation that
raises does not make the node a leaf: the recursive call still splits it,
returns 4 (not 1), and inserts two child nodes under it. -/
theorem c1_silhouette_exception_still_splits :
    (run_recursive_clustering demo_oracle_fail 1 2 5 0 [(101, 0), (202, 1)] ⟨[], []⟩).2 = 4 ∧
    (run_recursive_clustering demo_oracle_fail 1 2 5 0 [(101, 0), (202, 1)]
      ⟨[], []⟩).1.nodes.map (fun nd => nd.parent_id) = [none, some 1, some 1] := by
  constructor <;>
    simp [run_recursive_clustering, recursive_cluster_node, process_clusters,
      demo_oracle_fail, select_cluster, insert_cluster_tree_node,
      get_cluster_tree_max_node_id, set_node_centroid,
      update_cluster_tree_child_count, update_cluster_tree_assignments,
      List.range_succ]

/-- Claim C6: on the same failing-silhouette run, the split is performed
(node 1 ends with `child_count = 2` and two children exist) yet node 1's
centroid is never persisted — the centroid update sits after the
silhouette call inside the `try`, so the exception path skips it. -/
theorem c6_centroid_skipped_on_silhouette_exception :
    (run_recursive_clustering demo_oracle_fail 1 2 5 0 [(101, 0), (202, 1)]
      ⟨[], []⟩).1.nodes.map (fun nd => (nd.node_id, nd.centroid, nd.child_count)) =
      [(1, none, 2), (2, none, 0), (3, none, 0)] := by
  simp [run_recursive_clustering, recursive_cluster_node, process_clusters,
    demo_oracle_fail, select_cluster, insert_cluster_tree_node,
    get_cluster_tree_max_node_id, set_node_centroid,
    update_cluster_tree_child_count, update_cluster_tree_assignments,
    List.range_succ]

/-- Claim C5: if any centroid-missing node has `child_count > 0`,
`compute_missing_centroids` raises a `ValueError` whose message names the
offending node id, leaving the store untouched (it aborts before
computing or persisting any centroid); the returned id belongs to a
centroid-missing node and to a node with children. -/
theorem c5_backfill_raises_on_nonleaf_missing_centroid {α : Type} [DecidableEq α]
    (mean : List α → α) (st : CentroidStore α)
    (h : ∃ nd ∈ st.nodes, nd.centroid = none ∧ 0 < nd.child_count) :
    ∃ n, compute_missing_centroids mean st =
        (st, .error (assumption_violated_msg n)) ∧
      (∃ nd ∈ st.nodes, nd.node_id = n ∧ nd.centroid = none) ∧
      (∃ nd ∈ st.nodes, nd.node_id = n ∧ 0 < nd.child_count) := by
  classical
  obtain ⟨nd0, hmem, hcen, hcc⟩ := h
  have hnd0m : nd0 ∈ st.nodes.filter (fun nd => nd.centroid = none) :=
    List.mem_filter.mpr ⟨hmem, by simp [hcen]⟩
  have hne : (st.nodes.filter (fun nd => nd.centroid = none)).isEmpty = false := by
    by_contra hb
    rw [Bool.not_eq_false, List.isEmpty_iff] at hb
    rw [hb] at hnd0m
    cases hnd0m
  have hinw : nd0.node_id ∈
      (st.nodes.filter (fun nd => 0 < nd.child_count)).map (fun nd => nd.node_id) :=
    List.mem_map.mpr ⟨nd0, List.mem_filter.mpr ⟨hmem, by simp [hcc]⟩, rfl⟩
  have hex : ∃ nd, nd ∈ st.nodes.filter (fun nd => nd.centroid = none) ∧
      (fun nd => decide (nd.node_id ∈
        (st.nodes.filter (fun nd => 0 < nd.child_count)).map (fun nd => nd.node_id)))
        nd = true :=
    ⟨nd0, hnd0m, by simpa using hinw⟩
  have hsome := List.find?_isSome.mpr hex
  obtain ⟨off, hoff⟩ := Option.isSome_iff_exists.mp hsome
  have hoffmem := List.mem_of_find?_eq_some hoff
  have hoffpred := List.find?_some hoff
  rw [List.mem_filter] at hoffmem
  simp only [decide_eq_true_eq] at hoffpred
  obtain ⟨nd1, hnd1, hnd1id⟩ := List.mem_map.mp hoffpred
  rw [List.mem_filter] at hnd1
  refine ⟨off.node_id, ?_, ?_, ?_⟩
  · rw [compute_missing_centroids]
    rw [hne]
    simp only [Bool.false_eq_true, if_false, hoff]
  · exact ⟨off, hoffmem.1, rfl, by simpa using hoffmem.2⟩
  · exact ⟨nd1, hnd1.1, hnd1id, by simpa using hnd1.2⟩

/-- Witness for C5 (spec Example 5): a store whose node 7 has
`child_count = 1` and no centroid makes the backfill raise, naming node
7, with the store unchanged. -/
theorem c5_backfill_raises_on_nonleaf_missing_centroid_witness :
    (∃ nd ∈ ([⟨7, none, 0, 10, 1, none, []⟩] : List (ClusterTreeNode ℚ)),
      nd.centroid = none ∧ 0 < nd.child_count) ∧
    ∃ n, compute_missing_centroids (fun _ => (0 : ℚ))
        ⟨[⟨7, none, 0, 10, 1, none, []⟩], []⟩ =
        (⟨[⟨7, none, 0, 10, 1, none, []⟩], []⟩, .error (assumption_violated_msg n)) ∧
      (∃ nd ∈ ([⟨7, none, 0, 10, 1, none, []⟩] : List (ClusterTreeNode ℚ)),
        nd.node_id = n ∧ nd.centroid = none) ∧
      (∃ nd ∈ ([⟨7, none, 0, 10, 1, none, []⟩] : List (ClusterTreeNode ℚ)),
        nd.node_id = n ∧ 0 < nd.child_count) :=
  ⟨⟨⟨7, none, 0, 10, 1, none, []⟩, by simp, rfl, by decide⟩,
    c5_backfill_raises_on_nonleaf_missing_centroid (fun _ => (0 : ℚ))
      ⟨[⟨7, none, 0, 10, 1, none, []⟩], []⟩
      ⟨⟨7, none, 0, 10, 1, none, []⟩, by simp, rfl, by decide⟩⟩

/-- Claim C4 counterexample: on a namespace meeting the precondition
(2 documents, `max_k = 2`) whose root terminates as a leaf
(`doc_count = 2 ≤ leaf_target = 50`), `build_tree` creates the single
root node but writes no assignment at all — the two documents are
assigned to no leaf, because membership is only ever persisted for child
nodes, never for the root. -/
theorem c4_root_leaf_gets_no_assignments :
    (run_recursive_clustering demo_oracle 50 2 10 0 [(101, 0), (202, 1)]
      ⟨[], []⟩).1.nodes.length = 1 ∧
    (run_recursive_clustering demo_oracle 50 2 10 0 [(101, 0), (202, 1)]
      ⟨[], []⟩).2 = 1 ∧
    (run_recursive_clustering demo_oracle 50 2 10 0 [(101, 0), (202, 1)]
      ⟨[], []⟩).1.assigns = [] := by
  refine ⟨?_, ?_, ?_⟩ <;>
    simp [run_recursive_clustering, recursive_cluster_node, demo_oracle,
      insert_cluster_tree_node, get_cluster_tree_max_node_id]

lemma skel_insert {α : Type} (st : BuildStore α) (nd : ClusterTreeNode α) :
    skel (insert_cluster_tree_node st nd) = skel st ++ [(nd.node_id, nd.parent_id)] := by
  simp [skel, insert_cluster_tree_node]

lemma assigns_insert {α : Type} (st : BuildStore α) (nd : ClusterTreeNode α) :
    (insert_cluster_tree_node st nd).assigns = st.assigns := rfl

lemma skel_set_node_centroid {α : Type} (st : BuildStore α) (nid : ℕ) (c : α) :
    skel (set_node_centroid st nid c) = skel st := by
  simp only [skel, set_node_centroid, List.map_map]
  refine List.map_congr_left ?_
  intro nd _
  by_cases h : nd.node_id = nid <;> simp [h]

lemma assigns_set_node_centroid {α : Type} (st : BuildStore α) (nid : ℕ) (c : α) :
    (set_node_centroid st nid c).assigns = st.assigns := rfl

lemma skel_update_child_count {α : Type} (st : BuildStore α) (nid cnt : ℕ) :
    skel (update_cluster_tree_child_count st nid cnt) = skel st := by
  simp only [skel, update_cluster_tree_child_count, List.map_map]
  refine List.map_congr_left ?_
  intro nd _
  by_cases h : nd.node_id = nid <;> simp [h]

lemma assigns_update_child_count {α : Type} (st : BuildStore α) (nid cnt : ℕ) :
    (update_cluster_tree_child_count st nid cnt).assigns = st.assigns := rfl

lemma skel_update_assignments {α : Type} (st : BuildStore α) (nid : ℕ) (ps : List ℕ) :
    skel (update_cluster_tree_assignments st nid ps) = skel st := rfl

lemma assigns_update_assignments {α : Type} (st : BuildStore α) (nid : ℕ) (ps : List ℕ) :
    (update_cluster_tree_assignments st nid ps).assigns =
      st.assigns ++ ps.map (fun p => (p, nid)) := rfl

lemma max_node_id_skel {α : Type} (st : BuildStore α) :
    get_cluster_tree_max_node_id st = skel_max (skel st) := by
  rw [get_cluster_tree_max_node_id, skel, skel_max, List.foldr_map]

lemma skel_max_foldr_init (sk : List (ℕ × Option ℕ)) :
    ∀ i, sk.foldr (fun s m => max s.1 m) i = max (skel_max sk) i := by
  induction sk with
  | nil => intro i; simp [skel_max]
  | cons s r ih =>
      intro i
      simp only [List.foldr_cons, ih i, skel_max, Nat.max_assoc]

lemma skel_max_append (a b : List (ℕ × Option ℕ)) :
    skel_max (a ++ b) = max (skel_max a) (skel_max b) := by
  rw [skel_max, List.foldr_append, skel_max_foldr_init]
  rfl

lemma mem_le_skel_max {s : ℕ × Option ℕ} {sk : List (ℕ × Option ℕ)} (h : s ∈ sk) :
    s.1 ≤ skel_max sk := by
  induction sk with
  | nil => cases h
  | cons t r ih =>
      rcases List.mem_cons.mp h with rfl | h'
      · simp [skel_max]
      · simp only [skel_max, List.foldr_cons]
        exact le_trans (ih h') (Nat.le_max_right _ _)

lemma max_node_id_insert {α : Type} (st : BuildStore α) (nd : ClusterTreeNode α) :
    get_cluster_tree_max_node_id (insert_cluster_tree_node st nd) =
      max (get_cluster_tree_max_node_id st) nd.node_id := by
  rw [max_node_id_skel, skel_insert, skel_max_append, max_node_id_skel]
  simp [skel_max]

lemma max_node_id_set_node_centroid {α : Type} (st : BuildStore α) (nid : ℕ) (c : α) :
    get_cluster_tree_max_node_id (set_node_centroid st nid c) =
      get_cluster_tree_max_node_id st := by
  rw [max_node_id_skel, skel_set_node_centroid, max_node_id_skel]

lemma max_node_id_update_child_count {α : Type} (st : BuildStore α) (nid cnt : ℕ) :
    get_cluster_tree_max_node_id (update_cluster_tree_child_count st nid cnt) =
      get_cluster_tree_max_node_id st := by
  rw [max_node_id_skel, skel_update_child_count, max_node_id_skel]

lemma max_node_id_update_assignments {α : Type} (st : BuildStore α) (nid : ℕ)
    (ps : List ℕ) :
    get_cluster_tree_max_node_id (update_cluster_tree_assignments st nid ps) =
      get_cluster_tree_max_node_id st := by
  rw [max_node_id_skel, skel_update_assignments, max_node_id_skel]

lemma select_cluster_nil_left {β : Type} (ls : List ℕ) (c : ℕ) :
    select_cluster ([] : List β) ls c = [] := by
  simp [select_cluster]

lemma select_cluster_nil_right {β : Type} (xs : List β) (c : ℕ) :
    select_cluster xs [] c = [] := by
  simp [select_cluster]

lemma select_cluster_cons {β : Type} (x : β) (xs : List β) (l : ℕ) (ls : List ℕ)
    (c : ℕ) :
    select_cluster (x :: xs) (l :: ls) c =
      if l = c then x :: select_cluster xs ls c else select_cluster xs ls c := by
  by_cases h : l = c <;> simp [select_cluster, List.filter_cons, h]

lemma select_cluster_length_eq {β γ : Type} :
    ∀ (ls : List ℕ) (xs : List β) (ys : List γ), xs.length = ys.length →
      ∀ c, (select_cluster xs ls c).length = (select_cluster ys ls c).length := by
  intro ls
  induction ls with
  | nil => intro xs ys _ c; simp [select_cluster_nil_right]
  | cons l ls ih =>
      intro xs ys hlen c
      cases xs with
      | nil =>
          cases ys with
          | nil => rfl
          | cons y ys => simp at hlen
      | cons x xs =>
          cases ys with
          | nil => simp at hlen
          | cons y ys =>
              simp only [List.length_cons, Nat.add_right_cancel_iff] at hlen
              rw [select_cluster_cons, select_cluster_cons]
              by_cases h : l = c <;> simp [h, ih xs ys hlen c]

lemma flatten_extract {β : Type} (x : β) (F : ℕ → List β) :
    ∀ (cs : List ℕ) (l : ℕ), cs.Nodup → l ∈ cs →
      List.Perm ((cs.map (fun c => if l = c then x :: F c else F c)).flatten)
        (x :: (cs.map F).flatten) := by
  intro cs
  induction cs with
  | nil => intro l _ hl; cases hl
  | cons c0 rest ih =>
      intro l hnd hl
      rcases List.nodup_cons.mp hnd with ⟨hc0, hndr⟩
      by_cases h : l = c0
      · subst h
        have hrest : rest.map (fun c => if l = c then x :: F c else F c) = rest.map F := by
          refine List.map_congr_left ?_
          intro c hc
          have : ¬ l = c := fun he => hc0 (he ▸ hc)
          simp [this]
        simp only [List.map_cons, List.flatten_cons, if_pos rfl, hrest]
        exact List.Perm.refl _
      · have hl' : l ∈ rest := by
          rcases List.mem_cons.mp hl with h' | h'
          · exact absurd h'.symm (fun he => h he.symm)
          · exact h'
        have hne : ¬ l = c0 := h
        simp only [List.map_cons, List.flatten_cons, if_neg hne]
        exact List.Perm.trans (List.Perm.append_left (F c0) (ih l hndr hl'))
          List.perm_middle

lemma select_partition {β : Type} :
    ∀ (xs : List β) (ls : List ℕ) (k : ℕ), ls.length = xs.length →
      (∀ l ∈ ls, l < k) →
      List.Perm (((List.range k).map (fun c => select_cluster xs ls c)).flatten) xs := by
  intro xs
  induction xs with
  | nil =>
      intro ls k _ _
      have : (List.range k).map (fun c => select_cluster ([] : List β) ls c) =
          (List.range k).map (fun _ => []) := by
        refine List.map_congr_left ?_
        intro c _
        exact select_cluster_nil_left ls c
      rw [this]
      simp
  | cons x xs ih =>
      intro ls k hlen hlt
      cases ls with
      | nil => simp at hlen
      | cons l ls =>
          simp only [List.length_cons, Nat.add_right_cancel_iff] at hlen
          have hmap : (List.range k).map (fun c => select_cluster (x :: xs) (l :: ls) c) =
              (List.range k).map (fun c =>
                if l = c then x :: select_cluster xs ls c else select_cluster xs ls c) := by
            refine List.map_congr_left ?_
            intro c _
            exact select_cluster_cons x xs l ls c
          rw [hmap]
          have hlk : l ∈ List.range k :=
            List.mem_range.mpr (hlt l (List.mem_cons_self _ _))
          exact List.Perm.trans
            (flatten_extract x _ (List.range k) l (List.nodup_range _) hlk)
            (List.Perm.cons x (ih ls k hlen (fun a ha => hlt a (List.mem_cons_of_mem _ ha))))

lemma rcn_eq_leaf_hard {α : Type} (o : ClusterOracle α) (lt mk md : ℕ) (ms : ℚ)
    (page_ids : List ℕ) (page_vectors : List α) (nid dep dc : ℕ) (st : BuildStore α)
    (h : dc ≤ lt ∨ md ≤ dep) :
    recursive_cluster_node o lt mk md ms page_ids page_vectors nid dep dc st = (st, 1) := by
  rw [recursive_cluster_node.eq_def]
  rw [dif_pos h]

lemma rcn_eq_leaf_k {α : Type} (o : ClusterOracle α) (lt mk md : ℕ) (ms : ℚ)
    (page_ids : List ℕ) (page_vectors : List α) (nid dep dc : ℕ) (st : BuildStore α)
    (h : ¬ (dc ≤ lt ∨ md ≤ dep)) (h2 : min mk ((dc + lt - 1) / lt) ≤ 1) :
    recursive_cluster_node o lt mk md ms page_ids page_vectors nid dep dc st = (st, 1) := by
  rw [recursive_cluster_node.eq_def]
  rw [dif_neg h]
  simp only [if_pos h2]

lemma rcn_eq_quality_stop {α : Type} (o : ClusterOracle α) (lt mk md : ℕ) (ms : ℚ)
    (page_ids : List ℕ) (page_vectors : List α) (nid dep dc : ℕ) (st : BuildStore α)
    (s : ℚ) (h : ¬ (dc ≤ lt ∨ md ≤ dep)) (h2 : ¬ min mk ((dc + lt - 1) / lt) ≤ 1)
    (hs : o.silhouette page_vectors
      (o.kmeans (min mk ((dc + lt - 1) / lt)) page_vectors) = some s)
    (hlt : s < ms) :
    recursive_cluster_node o lt mk md ms page_ids page_vectors nid dep dc st =
      (set_node_centroid st nid
        (o.kmeans_centroid (min mk ((dc + lt - 1) / lt)) page_vectors), 1) := by
  rw [recursive_cluster_node.eq_def]
  rw [dif_neg h]
  simp only [if_neg h2, hs, if_pos hlt]

lemma rcn_eq_split_some {α : Type} (o : ClusterOracle α) (lt mk md : ℕ) (ms : ℚ)
    (page_ids : List ℕ) (page_vectors : List α) (nid dep dc : ℕ) (st : BuildStore α)
    (s : ℚ) (h : ¬ (dc ≤ lt ∨ md ≤ dep)) (h2 : ¬ min mk ((dc + lt - 1) / lt) ≤ 1)
    (hs : o.silhouette page_vectors
      (o.kmeans (min mk ((dc + lt - 1) / lt)) page_vectors) = some s)
    (hge : ¬ s < ms) :
    recursive_cluster_node o lt mk md ms page_ids page_vectors nid dep dc st =
      ((update_cluster_tree_child_count
          (process_clusters o lt mk md ms page_ids page_vectors
            (o.kmeans (min mk ((dc + lt - 1) / lt)) page_vectors) nid dep
            (List.range (min mk ((dc + lt - 1) / lt)))
            (set_node_centroid st nid
              (o.kmeans_centroid (min mk ((dc + lt - 1) / lt)) page_vectors)) 0 0).1
          nid
          (process_clusters o lt mk md ms page_ids page_vectors
            (o.kmeans (min mk ((dc + lt - 1) / lt)) page_vectors) nid dep
            (List.range (min mk ((dc + lt - 1) / lt)))
            (set_node_centroid st nid
              (o.kmeans_centroid (min mk ((dc + lt - 1) / lt)) page_vectors)) 0 0).2.1),
        (process_clusters o lt mk md ms page_ids page_vectors
          (o.kmeans (min mk ((dc + lt - 1) / lt)) page_vectors) nid dep
          (List.range (min mk ((dc + lt - 1) / lt)))
          (set_node_centroid st nid
            (o.kmeans_centroid (min mk ((dc + lt - 1) / lt)) page_vectors)) 0 0).2.2) := by
  rw [recursive_cluster_node.eq_def]
  rw [dif_neg h]
  simp only [if_neg h2, hs, if_neg hge]

lemma rcn_eq_split_none {α : Type} (o : ClusterOracle α) (lt mk md : ℕ) (ms : ℚ)
    (page_ids : List ℕ) (page_vectors : List α) (nid dep dc : ℕ) (st : BuildStore α)
    (h : ¬ (dc ≤ lt ∨ md ≤ dep)) (h2 : ¬ min mk ((dc + lt - 1) / lt) ≤ 1)
    (hs : o.silhouette page_vectors
      (o.kmeans (min mk ((dc + lt - 1) / lt)) page_vectors) = none) :
    recursive_cluster_node o lt mk md ms page_ids page_vectors nid dep dc st =
      ((update_cluster_tree_child_count
          (process_clusters o lt mk md ms page_ids page_vectors
            (o.kmeans (min mk ((dc + lt - 1) / lt)) page_vectors) nid dep
            (List.range (min mk ((dc + lt - 1) / lt))) st 0 0).1
          nid
          (process_clusters o lt mk md ms page_ids page_vectors
            (o.kmeans (min mk ((dc + lt - 1) / lt)) page_vectors) nid dep
            (List.range (min mk ((dc + lt - 1) / lt))) st 0 0).2.1),
        (process_clusters o lt mk md ms page_ids page_vectors
          (o.kmeans (min mk ((dc + lt - 1) / lt)) page_vectors) nid dep
          (List.range (min mk ((dc + lt - 1) / lt))) st 0 0).2.2) := by
  rw [recursive_cluster_node.eq_def]
  rw [dif_neg h]
  simp only [if_neg h2, hs]

lemma pc_eq_nil {α : Type} (o : ClusterOracle α) (lt mk md : ℕ) (ms : ℚ)
    (page_ids : List ℕ) (page_vectors : List α) (labels : List ℕ) (nid dep : ℕ)
    (st : BuildStore α) (ca da : ℕ) :
    process_clusters o lt mk md ms page_ids page_vectors labels nid dep [] st ca da =
      (st, ca, da) := by
  rw [process_clusters.eq_def]

lemma pc_eq_skip {α : Type} (o : ClusterOracle α) (lt mk md : ℕ) (ms : ℚ)
    (page_ids : List ℕ) (page_vectors : List α) (labels : List ℕ) (nid dep : ℕ)
    (c : ℕ) (rest : List ℕ) (st : BuildStore α) (ca da : ℕ)
    (h : (select_cluster page_ids labels c).length = 0) :
    process_clusters o lt mk md ms page_ids page_vectors labels nid dep (c :: rest) st ca da =
      process_clusters o lt mk md ms page_ids page_vectors labels nid dep rest st ca da := by
  rw [process_clusters.eq_def]
  simp only [if_pos h]

lemma pc_eq_step {α : Type} (o : ClusterOracle α) (lt mk md : ℕ) (ms : ℚ)
    (page_ids : List ℕ) (page_vectors : List α) (labels : List ℕ) (nid dep : ℕ)
    (c : ℕ) (rest : List ℕ) (st : BuildStore α) (ca da : ℕ)
    (h : ¬ (select_cluster page_ids labels c).length = 0) :
    process_clusters o lt mk md ms page_ids page_vectors labels nid dep (c :: rest) st ca da =
      process_clusters o lt mk md ms page_ids page_vectors labels nid dep rest
        (if (recursive_cluster_node o lt mk md ms (select_cluster page_ids labels c)
              (select_cluster page_vectors labels c)
              (get_cluster_tree_max_node_id st + 1) (dep + 1)
              (select_cluster page_ids labels c).length
              (insert_cluster_tree_node st
                ⟨get_cluster_tree_max_node_id st + 1, some nid, dep + 1,
                  (select_cluster page_ids labels c).length, 0, none,
                  (select_cluster page_ids labels c).take 10⟩)).2 = 1 then
          update_cluster_tree_assignments
            (recursive_cluster_node o lt mk md ms (select_cluster page_ids labels c)
              (select_cluster page_vectors labels c)
              (get_cluster_tree_max_node_id st + 1) (dep + 1)
              (select_cluster page_ids labels c).length
              (insert_cluster_tree_node st
                ⟨get_cluster_tree_max_node_id st + 1, some nid, dep + 1,
                  (select_cluster page_ids labels c).length, 0, none,
                  (select_cluster page_ids labels c).take 10⟩)).1
            (get_cluster_tree_max_node_id st + 1) (select_cluster page_ids labels c)
        else
          (recursive_cluster_node o lt mk md ms (select_cluster page_ids labels c)
            (select_cluster page_vectors labels c)
            (get_cluster_tree_max_node_id st + 1) (dep + 1)
            (select_cluster page_ids labels c).length
            (insert_cluster_tree_node st
              ⟨get_cluster_tree_max_node_id st + 1, some nid, dep + 1,
                (select_cluster page_ids labels c).length, 0, none,
                (select_cluster page_ids labels c).take 10⟩)).1)
        (ca + 1)
        (da + 1 + (recursive_cluster_node o lt mk md ms (select_cluster page_ids labels c)
            (select_cluster page_vectors labels c)
            (get_cluster_tree_max_node_id st + 1) (dep + 1)
            (select_cluster page_ids labels c).length
            (insert_cluster_tree_node st
              ⟨get_cluster_tree_max_node_id st + 1, some nid, dep + 1,
                (select_cluster page_ids labels c).length, 0, none,
                (select_cluster page_ids labels c).take 10⟩)).2) := by
  rw [process_clusters.eq_def]
  simp only [if_neg h]

lemma NodeOut_same {α : Type} (st st' : BuildStore α) (page_ids : List ℕ) (nid : ℕ)
    (ha : st'.assigns = st.assigns) (hs : skel st' = skel st)
    (hm : get_cluster_tree_max_node_id st' = get_cluster_tree_max_node_id st) :
    NodeOut st st' 1 page_ids nid := by
  refine ⟨[], [], by simp [ha], by simp [hs], by simp, by omega, le_refl 1, by simp,
    fun _ => rfl, by simp, by simp, by simp, by simp⟩

lemma NodeOut_of_PcOut {α : Type} (o : ClusterOracle α) (HO : OracleValid o)
    (page_ids : List ℕ) (page_vectors : List α) (nid k ca da : ℕ)
    (st st1 st2 : BuildStore α)
    (hk2 : 2 ≤ k)
    (hlen : page_vectors.length = page_ids.length)
    (hpne : page_ids ≠ [])
    (ha1 : st1.assigns = st.assigns) (hs1 : skel st1 = skel st)
    (hpc : PcOut st1 st2 0 0 ca da (List.range k) page_ids (o.kmeans k page_vectors) nid) :
    NodeOut st (update_cluster_tree_child_count st2 nid ca) da page_ids nid := by
  obtain ⟨dl, sk, A1, A2, A3, A4, A5, A6, A7, A8, A9, A10, A11, A12⟩ := hpc
  have hm1 : get_cluster_tree_max_node_id st1 = get_cluster_tree_max_node_id st := by
    rw [max_node_id_skel, hs1, max_node_id_skel]
  obtain ⟨hlablen, hlabmem⟩ := HO k page_vectors hk2
  have hx : ∃ c ∈ List.range k,
      select_cluster page_ids (o.kmeans k page_vectors) c ≠ [] := by
    cases hp : page_ids with
    | nil => exact absurd hp hpne
    | cons p ps =>
        cases hlab : o.kmeans k page_vectors with
        | nil =>
            exfalso
            rw [hlab] at hlablen
            rw [hp] at hlen
            simp only [List.length_nil, List.length_cons] at hlablen hlen
            omega
        | cons l0 ls =>
            have hl0 : l0 ∈ o.kmeans k page_vectors := by
              rw [hlab]
              exact List.mem_cons_self l0 ls
            have hl0k : l0 ∈ List.range k := List.mem_range.mpr (hlabmem l0 hl0)
            have hne2 : select_cluster (p :: ps) (l0 :: ls) l0 ≠ [] := by
              rw [select_cluster_cons, if_pos rfl]
              simp
            exact ⟨l0, hl0k, hne2⟩
  obtain ⟨hskne, hda2⟩ := A8 hx
  have hmu : get_cluster_tree_max_node_id (update_cluster_tree_child_count st2 nid ca) =
      get_cluster_tree_max_node_id st2 := max_node_id_update_child_count st2 nid ca
  refine ⟨dl, sk, ?_, ?_, ?_, ?_, by omega, ?_, fun h1 => absurd h1 (by omega), ?_,
    A9, A10, A11, A12⟩
  · rw [assigns_update_child_count, A1, ha1]
  · rw [skel_update_child_count, A2, hs1]
  · intro s hsin
    obtain ⟨b1, b2⟩ := A3 s hsin
    rw [hm1] at b1
    rw [hmu]
    exact ⟨b1, b2⟩
  · rw [hmu]
    rw [hm1] at A4
    exact A4
  · constructor
    · intro h1
      omega
    · intro hsk
      exact absurd hsk hskne
  · intro _
    have hll : (o.kmeans k page_vectors).length = page_ids.length := by
      rw [hlablen, hlen]
    exact A7.trans (select_partition page_ids (o.kmeans k page_vectors) k hll hlabmem)

lemma PcOut_nil {α : Type} (st : BuildStore α) (ca da : ℕ) (pids labels : List ℕ)
    (nid : ℕ) : PcOut st st ca da ca da [] pids labels nid := by
  refine ⟨[], [], by simp, by simp, by simp, le_refl _, le_refl _, le_refl _,
    by simp, ?_, by simp, by simp, by simp, by simp⟩
  rintro ⟨c, hc, -⟩
  cases hc

lemma PcOut_skip {α : Type} (st st' : BuildStore α) (ca da ca' da' : ℕ) (c : ℕ)
    (rest pids labels : List ℕ) (nid : ℕ)
    (hc : select_cluster pids labels c = [])
    (h : PcOut st st' ca da ca' da' rest pids labels nid) :
    PcOut st st' ca da ca' da' (c :: rest) pids labels nid := by
  obtain ⟨dl, sk, A1, A2, A3, A4, A5, A6, A7, A8, A9, A10, A11, A12⟩ := h
  refine ⟨dl, sk, A1, A2, A3, A4, A5, A6, ?_, ?_, A9, A10, A11, A12⟩
  · simp only [List.map_cons, List.flatten_cons, hc, List.nil_append]
    exact A7
  · rintro ⟨c', hc', hne⟩
    rcases List.mem_cons.mp hc' with rfl | hc''
    · exact absurd hc hne
    · exact A8 ⟨c', hc'', hne⟩

lemma PcOut_step {α : Type} (pids labels : List ℕ) (nid dep ca da ca' da' c : ℕ)
    (rest : List ℕ) (st stc st3 : BuildStore α) (r : ℕ)
    (cps : List ℕ) (hcps : cps = select_cluster pids labels c)
    (cid : ℕ) (hcid : cid = get_cluster_tree_max_node_id st + 1)
    (st1 : BuildStore α) (hst1 : st1 = insert_cluster_tree_node st
      ⟨cid, some nid, dep + 1, cps.length, 0, none, cps.take 10⟩)
    (st2 : BuildStore α)
    (hst2 : st2 = if r = 1 then update_cluster_tree_assignments stc cid cps else stc)
    (hnid : nid ≤ get_cluster_tree_max_node_id st)
    (hcne : cps ≠ [])
    (hchild : NodeOut st1 stc r cps cid)
    (hrest : PcOut st2 st3 (ca + 1) (da + 1 + r) ca' da' rest pids labels nid) :
    PcOut st st3 ca da ca' da' (c :: rest) pids labels nid := by
  classical
  obtain ⟨dl1, sk1, B1, B2, B3, B4, B5, B6, B7, B8, B9, B10, B11, B12⟩ := hchild
  obtain ⟨dl2, sk2, C1, C2, C3, C4, C5, C6, C7, C8, C9, C10, C11, C12⟩ := hrest
  have hm1 : get_cluster_tree_max_node_id st1 = cid := by
    rw [hst1, max_node_id_insert]
    refine max_eq_right ?_
    show get_cluster_tree_max_node_id st ≤ cid
    omega
  have hs1 : skel st1 = skel st ++ [(cid, some nid)] := by
    rw [hst1, skel_insert]
  have ha1 : st1.assigns = st.assigns := by
    rw [hst1, assigns_insert]
  have hg2 : skel st2 = skel stc := by
    rw [hst2]
    by_cases hr : r = 1
    · rw [if_pos hr, skel_update_assignments]
    · rw [if_neg hr]
  have hg3 : get_cluster_tree_max_node_id st2 = get_cluster_tree_max_node_id stc := by
    rw [max_node_id_skel, hg2, max_node_id_skel]
  have hg1 : st2.assigns = stc.assigns ++
      (if r = 1 then cps.map (fun p => (p, cid)) else []) := by
    rw [hst2]
    by_cases hr : r = 1
    · rw [if_pos hr, if_pos hr, assigns_update_assignments]
    · rw [if_neg hr, if_neg hr, List.append_nil]
  have hcid_le : cid ≤ get_cluster_tree_max_node_id stc := hm1 ▸ B4
  refine ⟨dl1 ++ ((if r = 1 then cps.map (fun p => (p, cid)) else []) ++ dl2),
    (cid, some nid) :: (sk1 ++ sk2), ?_, ?_, ?_, by omega, by omega, by omega, ?_, ?_,
    ?_, ?_, ?_, ?_⟩
  · rw [C1, hg1, B1, ha1]
    simp [List.append_assoc]
  · rw [C2, hg2, B2, hs1]
    simp [List.append_assoc]
  · intro s hs
    rcases List.mem_cons.mp hs with rfl | hs'
    · exact ⟨by omega, by omega⟩
    rcases List.mem_append.mp hs' with h1 | h2
    · obtain ⟨b1, b2⟩ := B3 s h1
      rw [hm1] at b1
      exact ⟨by omega, by omega⟩
    · obtain ⟨b1, b2⟩ := C3 s h2
      exact ⟨by omega, by omega⟩
  · -- assignment-journal block covers the clusters of (c :: rest)
    simp only [List.map_cons, List.flatten_cons, ← hcps, List.map_append]
    by_cases hr : r = 1
    · rw [B7 hr, if_pos hr]
      have hmap : List.map Prod.fst (List.map (fun p => ((p, cid) : ℕ × ℕ)) cps) = cps := by
        simp [Function.comp_def]
      simp only [List.map_nil, List.nil_append, hmap]
      exact List.Perm.append_left cps C7
    · rw [if_neg hr]
      simp only [List.map_nil, List.nil_append]
      exact List.Perm.append (B8 hr) C7
  · intro _
    exact ⟨List.cons_ne_nil _ _, by omega⟩
  · intro pm hpm
    rcases List.mem_append.mp hpm with h1 | h1'
    · obtain ⟨hin, hnpar⟩ := B9 pm h1
      obtain ⟨s0, hs0, hs0eq⟩ := List.mem_map.mp hin
      have hb3 := B3 s0 hs0
      have hgt : cid < pm.2 := by rw [hm1] at hb3; omega
      have hle : pm.2 ≤ get_cluster_tree_max_node_id stc := by omega
      constructor
      · simp only [List.map_cons, List.map_append, List.mem_cons, List.mem_append]
        right; left
        exact hin
      · intro s hs
        rcases List.mem_cons.mp hs with rfl | hs'
        · simp only [ne_eq, Option.some.injEq]
          omega
        rcases List.mem_append.mp hs' with h2 | h2
        · exact hnpar s h2
        · rcases C11 s h2 with he | ⟨t, ht, hte⟩
          · rw [he]
            simp only [ne_eq, Option.some.injEq]
            omega
          · rw [hte]
            have := (C3 t ht).1
            simp only [ne_eq, Option.some.injEq]
            omega
    rcases List.mem_append.mp h1' with h2 | h3
    · -- pm stems from the parent's leaf-assignment write
      by_cases hr : r = 1
      · rw [if_pos hr] at h2
        obtain ⟨p, hp, rfl⟩ := List.mem_map.mp h2
        have hsk1nil : sk1 = [] := B6.mp hr
        constructor
        · simp
        · intro s hs
          rcases List.mem_cons.mp hs with rfl | hs'
          · simp only [ne_eq, Option.some.injEq]
            omega
          rcases List.mem_append.mp hs' with hz | hz
          · rw [hsk1nil] at hz
            cases hz
          · rcases C11 s hz with he | ⟨t, ht, hte⟩
            · rw [he]
              simp only [ne_eq, Option.some.injEq]
              omega
            · rw [hte]
              have := (C3 t ht).1
              simp only [ne_eq, Option.some.injEq]
              omega
      · rw [if_neg hr] at h2
        cases h2
    · obtain ⟨hin2, hnpar2⟩ := C9 pm h3
      obtain ⟨s0, hs0, hs0eq⟩ := List.mem_map.mp hin2
      have hc3 := C3 s0 hs0
      have hgt2 : get_cluster_tree_max_node_id st2 < pm.2 := by omega
      constructor
      · simp only [List.map_cons, List.map_append, List.mem_cons, List.mem_append]
        right; right
        exact hin2
      · intro s hs
        rcases List.mem_cons.mp hs with rfl | hs'
        · simp only [ne_eq, Option.some.injEq]
          omega
        rcases List.mem_append.mp hs' with hz | hz
        · rcases B11 s hz with he | ⟨t, ht, hte⟩
          · rw [he]
            simp only [ne_eq, Option.some.injEq]
            omega
          · rw [hte]
            have := (B3 t ht).2
            simp only [ne_eq, Option.some.injEq]
            omega
        · exact hnpar2 s hz
  · intro _
    exact ⟨(cid, some nid), List.mem_cons_self _ _, rfl⟩
  · intro s hs
    rcases List.mem_cons.mp hs with rfl | hs'
    · left; rfl
    rcases List.mem_append.mp hs' with h1 | h2
    · rcases B11 s h1 with he | ⟨t, ht, hte⟩
      · right
        exact ⟨(cid, some nid), List.mem_cons_self _ _, he⟩
      · right
        exact ⟨t, List.mem_cons_of_mem _ (List.mem_append_left _ ht), hte⟩
    · rcases C11 s h2 with he | ⟨t, ht, hte⟩
      · left; exact he
      · right
        exact ⟨t, List.mem_cons_of_mem _ (List.mem_append_right _ ht), hte⟩
  · intro t ht hno
    rcases List.mem_cons.mp ht with rfl | ht'
    · by_cases hr : r = 1
      · obtain ⟨q, hq⟩ := List.exists_mem_of_ne_nil cps hcne
        refine ⟨q, ?_⟩
        refine List.mem_append_right _ (List.mem_append_left _ ?_)
        rw [if_pos hr]
        exact List.mem_map.mpr ⟨q, hq, rfl⟩
      · have hsk1ne : sk1 ≠ [] := fun h => hr (B6.mpr h)
        obtain ⟨s, hs, hseq⟩ := B10 hsk1ne
        exact absurd hseq
          (hno s (List.mem_cons_of_mem _ (List.mem_append_left _ hs)))
    rcases List.mem_append.mp ht' with h1 | h2
    · have hno1 : ∀ s ∈ sk1, s.2 ≠ some t.1 := fun s hs =>
        hno s (List.mem_cons_of_mem _ (List.mem_append_left _ hs))
      obtain ⟨p, hp⟩ := B12 t h1 hno1
      exact ⟨p, List.mem_append_left _ hp⟩
    · have hno2 : ∀ s ∈ sk2, s.2 ≠ some t.1 := fun s hs =>
        hno s (List.mem_cons_of_mem _ (List.mem_append_right _ hs))
      obtain ⟨p, hp⟩ := C12 t h2 hno2
      exact ⟨p, List.mem_append_right _ (List.mem_append_right _ hp)⟩

lemma recursive_cluster_node_master {α : Type} (o : ClusterOracle α)
    (lt mk md : ℕ) (ms : ℚ) (HO : OracleValid o) :
    ∀ (page_ids : List ℕ) (page_vectors : List α) (node_id depth doc_count : ℕ)
      (st : BuildStore α),
      page_vectors.length = page_ids.length →
      doc_count = page_ids.length →
      node_id ≤ get_cluster_tree_max_node_id st →
      NodeOut st
        (recursive_cluster_node o lt mk md ms page_ids page_vectors node_id depth
          doc_count st).1
        (recursive_cluster_node o lt mk md ms page_ids page_vectors node_id depth
          doc_count st).2
        page_ids node_id := by
  refine recursive_cluster_node.induct o lt mk md ms
    (fun pids pvecs nid dep dc st =>
      pvecs.length = pids.length → dc = pids.length →
      nid ≤ get_cluster_tree_max_node_id st →
      NodeOut st
        (recursive_cluster_node o lt mk md ms pids pvecs nid dep dc st).1
        (recursive_cluster_node o lt mk md ms pids pvecs nid dep dc st).2 pids nid)
    (fun pids pvecs labels nid dep cs st ca da =>
      pvecs.length = pids.length →
      nid ≤ get_cluster_tree_max_node_id st →
      PcOut st
        (process_clusters o lt mk md ms pids pvecs labels nid dep cs st ca da).1 ca da
        (process_clusters o lt mk md ms pids pvecs labels nid dep cs st ca da).2.1
        (process_clusters o lt mk md ms pids pvecs labels nid dep cs st ca da).2.2
        cs pids labels nid)
    ?_ ?_ ?_ ?_ ?_ ?_ ?_ ?_
  · -- hard stopping conditions: leaf
    intro pids pvecs nid dep dc st h hlen hdc hnid
    rw [rcn_eq_leaf_hard o lt mk md ms pids pvecs nid dep dc st h]
    exact NodeOut_same st st pids nid rfl rfl rfl
  · -- k ≤ 1: leaf
    intro pids pvecs nid dep dc st h k hk hlen hdc hnid
    rw [rcn_eq_leaf_k o lt mk md ms pids pvecs nid dep dc st h hk]
    exact NodeOut_same st st pids nid rfl rfl rfl
  · -- quality below threshold: leaf with centroid persisted
    intro pids pvecs nid dep dc st h k hk2 labels s hs hslt hlen hdc hnid
    rw [rcn_eq_quality_stop o lt mk md ms pids pvecs nid dep dc st s h hk2 hs hslt]
    exact NodeOut_same st _ pids nid
      (assigns_set_node_centroid st nid _) (skel_set_node_centroid st nid _)
      (max_node_id_set_node_centroid st nid _)
  · -- quality at or above threshold: split from the centroid-updated store
    intro pids pvecs nid dep dc st h k hk2 labels s hs st1 hge IH2 hlen hdc hnid
    rw [rcn_eq_split_some o lt mk md ms pids pvecs nid dep dc st s h hk2 hs hge]
    have hk2' : 2 ≤ k := by omega
    have hpne : pids ≠ [] := by
      intro he
      rw [he] at hdc
      simp only [List.length_nil] at hdc
      push_neg at h
      omega
    have hnid1 : nid ≤ get_cluster_tree_max_node_id st1 := by
      have he : get_cluster_tree_max_node_id st1 = get_cluster_tree_max_node_id st :=
        max_node_id_set_node_centroid st nid _
      omega
    exact NodeOut_of_PcOut o HO pids pvecs nid k _ _ st st1 _ hk2' hlen hpne
      (assigns_set_node_centroid st nid _) (skel_set_node_centroid st nid _)
      (IH2 hlen hnid1)
  · -- silhouette raised: split from the untouched store, no centroid
    intro pids pvecs nid dep dc st h k hk2 labels hs IH2 hlen hdc hnid
    rw [rcn_eq_split_none o lt mk md ms pids pvecs nid dep dc st h hk2 hs]
    have hk2' : 2 ≤ k := by omega
    have hpne : pids ≠ [] := by
      intro he
      rw [he] at hdc
      simp only [List.length_nil] at hdc
      push_neg at h
      omega
    exact NodeOut_of_PcOut o HO pids pvecs nid k _ _ st st _ hk2' hlen hpne
      rfl rfl (IH2 hlen hnid)
  · -- loop: no clusters left
    intro pids pvecs labels nid dep st ca da hlen hnid
    rw [pc_eq_nil]
    exact PcOut_nil st ca da pids labels nid
  · -- loop: empty cluster skipped
    intro pids pvecs labels nid dep st ca da c rest cps csize h0 IH hlen hnid
    rw [pc_eq_skip o lt mk md ms pids pvecs labels nid dep c rest st ca da h0]
    exact PcOut_skip st _ ca da _ _ c rest pids labels nid
      (List.length_eq_zero.mp h0) (IH hlen hnid)
  · -- loop: non-empty cluster creates a child and recurses
    intro pids pvecs labels nid dep st ca da c rest cps cvecs csize hne cid nd st1
      res st2 IH1 IH1b IH2 hlen hnid
    rw [pc_eq_step o lt mk md ms pids pvecs labels nid dep c rest st ca da hne]
    have hlen' : (select_cluster pvecs labels c).length =
        (select_cluster pids labels c).length :=
      select_cluster_length_eq labels pvecs pids hlen c
    have hm1 : get_cluster_tree_max_node_id st1 = cid := by
      show get_cluster_tree_max_node_id (insert_cluster_tree_node st nd) = cid
      rw [max_node_id_insert]
      show max (get_cluster_tree_max_node_id st) cid = cid
      refine max_eq_right ?_
      show get_cluster_tree_max_node_id st ≤ get_cluster_tree_max_node_id st + 1
      omega
    have hnid1 : cid ≤ get_cluster_tree_max_node_id st1 := le_of_eq hm1.symm
    have hchild := IH1 hlen' rfl hnid1
    have hB4 : get_cluster_tree_max_node_id st1 ≤
        get_cluster_tree_max_node_id res.1 := by
      obtain ⟨_, _, -, -, -, hB4, -, -, -, -, -, -, -, -⟩ := hchild
      exact hB4
    have hst2max : get_cluster_tree_max_node_id st2 =
        get_cluster_tree_max_node_id res.1 := by
      show get_cluster_tree_max_node_id
        (if res.2 = 1 then update_cluster_tree_assignments res.1 cid
          (select_cluster pids labels c) else res.1) = _
      by_cases hr : res.2 = 1
      · rw [if_pos hr, max_node_id_update_assignments]
      · rw [if_neg hr]
    have hnid2 : nid ≤ get_cluster_tree_max_node_id st2 := by
      have hcidb : cid = get_cluster_tree_max_node_id st + 1 := rfl
      omega
    have hrest := IH2 hlen hnid2
    exact PcOut_step pids labels nid dep ca da _ _ c rest st res.1 _ res.2
      (select_cluster pids labels c) rfl cid rfl st1 rfl st2 rfl hnid
      (fun hc => hne (by show (select_cluster pids labels c).length = 0; rw [hc]; rfl))
      hchild hrest

lemma node_id_le_max {α : Type} {st : BuildStore α} {nd : ClusterTreeNode α}
    (h : nd ∈ st.nodes) : nd.node_id ≤ get_cluster_tree_max_node_id st := by
  rw [max_node_id_skel]
  have hmem : (nd.node_id, nd.parent_id) ∈ skel st := List.mem_map.mpr ⟨nd, h, rfl⟩
  exact mem_le_skel_max hmem

lemma map_node_id_eq_skel_fst {α : Type} (st : BuildStore α) :
    st.nodes.map (fun nd => nd.node_id) = (skel st).map Prod.fst := by
  simp [skel, List.map_map, Function.comp_def]

lemma mem_skel_of_mem_nodes {α : Type} {st : BuildStore α} {nd : ClusterTreeNode α}
    (h : nd ∈ st.nodes) : (nd.node_id, nd.parent_id) ∈ skel st :=
  List.mem_map.mpr ⟨nd, h, rfl⟩

lemma demo_oracle_valid : OracleValid demo_oracle := by
  intro k vecs hk
  constructor
  · simp [demo_oracle]
  · intro l hl
    simp only [demo_oracle, List.mem_map] at hl
    obtain ⟨v, -, rfl⟩ := hl
    exact Nat.mod_lt _ (by omega)

/-- Claim C8: a recursive builder call returns exactly 1 if and only if
the node ended as a leaf (no node was inserted under it), any call that
created at least one node returns at least 2, and the membership
assignments written during the call target exactly the newly created
childless nodes: every journal entry points at a new node that has no
children in the final store (so never at a node that became internal),
no entries are written by a call that returns 1, and every new node
without children received entries. -/
theorem c8_leaf_iff_returns_one {α : Type} (o : ClusterOracle α)
    (leaf_target max_k max_depth : ℕ) (min_silhouette_threshold : ℚ)
    (page_ids : List ℕ) (page_vectors : List α) (node_id depth doc_count : ℕ)
    (st : BuildStore α)
    (HO : OracleValid o)
    (hlen : page_vectors.length = page_ids.length)
    (hdc : doc_count = page_ids.length)
    (hnid : node_id ≤ get_cluster_tree_max_node_id st)
    (hwf : ∀ nd ∈ st.nodes, ∀ j ∈ nd.parent_id, j ≤ get_cluster_tree_max_node_id st) :
    ((recursive_cluster_node o leaf_target max_k max_depth min_silhouette_threshold
        page_ids page_vectors node_id depth doc_count st).2 = 1 ↔
      (recursive_cluster_node o leaf_target max_k max_depth min_silhouette_threshold
        page_ids page_vectors node_id depth doc_count st).1.nodes.length =
        st.nodes.length) ∧
    (st.nodes.length < (recursive_cluster_node o leaf_target max_k max_depth
        min_silhouette_threshold page_ids page_vectors node_id depth doc_count
        st).1.nodes.length →
      2 ≤ (recursive_cluster_node o leaf_target max_k max_depth
        min_silhouette_threshold page_ids page_vectors node_id depth doc_count st).2) ∧
    (∃ dl, (recursive_cluster_node o leaf_target max_k max_depth
        min_silhouette_threshold page_ids page_vectors node_id depth doc_count
        st).1.assigns = st.assigns ++ dl ∧
      ((recursive_cluster_node o leaf_target max_k max_depth min_silhouette_threshold
          page_ids page_vectors node_id depth doc_count st).2 = 1 → dl = []) ∧
      (∀ pm ∈ dl, get_cluster_tree_max_node_id st < pm.2 ∧
        pm.2 ∈ (recursive_cluster_node o leaf_target max_k max_depth
          min_silhouette_threshold page_ids page_vectors node_id depth doc_count
          st).1.nodes.map (fun nd => nd.node_id) ∧
        ∀ nd ∈ (recursive_cluster_node o leaf_target max_k max_depth
          min_silhouette_threshold page_ids page_vectors node_id depth doc_count
          st).1.nodes, nd.parent_id ≠ some pm.2) ∧
      (∀ nd ∈ (recursive_cluster_node o leaf_target max_k max_depth
          min_silhouette_threshold page_ids page_vectors node_id depth doc_count
          st).1.nodes, get_cluster_tree_max_node_id st < nd.node_id →
        (∀ nd' ∈ (recursive_cluster_node o leaf_target max_k max_depth
          min_silhouette_threshold page_ids page_vectors node_id depth doc_count
          st).1.nodes, nd'.parent_id ≠ some nd.node_id) →
        ∃ p, (p, nd.node_id) ∈ dl)) := by
  obtain ⟨dl, sk, A1, A2, A3, A4, A5, A6, A7, A8, A9, A10, A11, A12⟩ :=
    recursive_cluster_node_master o leaf_target max_k max_depth
      min_silhouette_threshold HO page_ids page_vectors node_id depth doc_count st
      hlen hdc hnid
  have hlens : (recursive_cluster_node o leaf_target max_k max_depth
      min_silhouette_threshold page_ids page_vectors node_id depth doc_count
      st).1.nodes.length = st.nodes.length + sk.length := by
    have hc := congrArg List.length A2
    simpa [skel] using hc
  refine ⟨?_, ?_, dl, A1, A7, ?_, ?_⟩
  · constructor
    · intro h1
      rw [hlens, A6.mp h1]
      simp
    · intro hle
      refine A6.mpr (List.length_eq_zero.mp ?_)
      omega
  · intro hlt
    have hskne : sk ≠ [] := by
      intro he
      rw [he] at hlens
      simp at hlens
      omega
    have : ¬ (recursive_cluster_node o leaf_target max_k max_depth
        min_silhouette_threshold page_ids page_vectors node_id depth doc_count
        st).2 = 1 := fun h1 => hskne (A6.mp h1)
    omega
  · intro pm hpm
    obtain ⟨hin, hnpar⟩ := A9 pm hpm
    obtain ⟨s0, hs0, hs0eq⟩ := List.mem_map.mp hin
    have hb := A3 s0 hs0
    refine ⟨by omega, ?_, ?_⟩
    · rw [map_node_id_eq_skel_fst, A2, List.map_append]
      exact List.mem_append_right _ hin
    · intro nd hnd
      have hpair : (nd.node_id, nd.parent_id) ∈ skel st ++ sk := by
        rw [← A2]
        exact mem_skel_of_mem_nodes hnd
      rcases List.mem_append.mp hpair with hold | hnew
      · obtain ⟨nd0, hnd0, heq⟩ := List.mem_map.mp hold
        have hpar : nd.parent_id = nd0.parent_id := (congrArg Prod.snd heq).symm
        rw [hpar]
        intro hcon
        have := hwf nd0 hnd0 pm.2 (by rw [hcon]; rfl)
        omega
      · exact hnpar _ hnew
  · intro nd hnd hgt hno
    have hpair : (nd.node_id, nd.parent_id) ∈ skel st ++ sk := by
      rw [← A2]
      exact mem_skel_of_mem_nodes hnd
    rcases List.mem_append.mp hpair with hold | hnew
    · obtain ⟨nd0, hnd0, heq⟩ := List.mem_map.mp hold
      have hid : nd0.node_id = nd.node_id := congrArg Prod.fst heq
      have := node_id_le_max hnd0
      omega
    · have hno' : ∀ s ∈ sk, s.2 ≠ some nd.node_id := by
        intro s hs
        have hsin : s ∈ skel (recursive_cluster_node o leaf_target max_k max_depth
            min_silhouette_threshold page_ids page_vectors node_id depth doc_count
            st).1 := by
          rw [A2]
          exact List.mem_append_right _ hs
        obtain ⟨nd2, hnd2, heq2⟩ := List.mem_map.mp hsin
        have : s.2 = nd2.parent_id := (congrArg Prod.snd heq2).symm
        rw [this]
        exact hno nd2 hnd2
      obtain ⟨p, hp⟩ := A12 _ hnew hno'
      exact ⟨p, hp⟩

/-- Witness for C8: the builder call on a two-document node (ids 101 and
202, vectors 0 and 1) from a store holding the root row satisfies the
leaf/return characterisation. -/
theorem c8_leaf_iff_returns_one_witness :
    OracleValid demo_oracle ∧
    ([0, 1] : List ℕ).length = ([101, 202] : List ℕ).length ∧
    2 = ([101, 202] : List ℕ).length ∧
    1 ≤ get_cluster_tree_max_node_id
      (⟨[⟨1, none, 0, 2, 0, none, []⟩], []⟩ : BuildStore ℕ) ∧
    (∀ nd ∈ (⟨[⟨1, none, 0, 2, 0, none, []⟩], []⟩ : BuildStore ℕ).nodes,
      ∀ j ∈ nd.parent_id, j ≤ get_cluster_tree_max_node_id
        (⟨[⟨1, none, 0, 2, 0, none, []⟩], []⟩ : BuildStore ℕ)) ∧
    (((recursive_cluster_node demo_oracle 1 2 5 0 [101, 202] [0, 1] 1 0 2
        ⟨[⟨1, none, 0, 2, 0, none, []⟩], []⟩).2 = 1 ↔
      (recursive_cluster_node demo_oracle 1 2 5 0 [101, 202] [0, 1] 1 0 2
        ⟨[⟨1, none, 0, 2, 0, none, []⟩], []⟩).1.nodes.length =
        (⟨[⟨1, none, 0, 2, 0, none, []⟩], []⟩ : BuildStore ℕ).nodes.length) ∧
    ((⟨[⟨1, none, 0, 2, 0, none, []⟩], []⟩ : BuildStore ℕ).nodes.length <
        (recursive_cluster_node demo_oracle 1 2 5 0 [101, 202] [0, 1] 1 0 2
          ⟨[⟨1, none, 0, 2, 0, none, []⟩], []⟩).1.nodes.length →
      2 ≤ (recursive_cluster_node demo_oracle 1 2 5 0 [101, 202] [0, 1] 1 0 2
        ⟨[⟨1, none, 0, 2, 0, none, []⟩], []⟩).2) ∧
    (∃ dl, (recursive_cluster_node demo_oracle 1 2 5 0 [101, 202] [0, 1] 1 0 2
        ⟨[⟨1, none, 0, 2, 0, none, []⟩], []⟩).1.assigns =
        (⟨[⟨1, none, 0, 2, 0, none, []⟩], []⟩ : BuildStore ℕ).assigns ++ dl ∧
      ((recursive_cluster_node demo_oracle 1 2 5 0 [101, 202] [0, 1] 1 0 2
          ⟨[⟨1, none, 0, 2, 0, none, []⟩], []⟩).2 = 1 → dl = []) ∧
      (∀ pm ∈ dl, get_cluster_tree_max_node_id
          (⟨[⟨1, none, 0, 2, 0, none, []⟩], []⟩ : BuildStore ℕ) < pm.2 ∧
        pm.2 ∈ (recursive_cluster_node demo_oracle 1 2 5 0 [101, 202] [0, 1] 1 0 2
          ⟨[⟨1, none, 0, 2, 0, none, []⟩], []⟩).1.nodes.map (fun nd => nd.node_id) ∧
        ∀ nd ∈ (recursive_cluster_node demo_oracle 1 2 5 0 [101, 202] [0, 1] 1 0 2
          ⟨[⟨1, none, 0, 2, 0, none, []⟩], []⟩).1.nodes,
          nd.parent_id ≠ some pm.2) ∧
      (∀ nd ∈ (recursive_cluster_node demo_oracle 1 2 5 0 [101, 202] [0, 1] 1 0 2
          ⟨[⟨1, none, 0, 2, 0, none, []⟩], []⟩).1.nodes,
        get_cluster_tree_max_node_id
          (⟨[⟨1, none, 0, 2, 0, none, []⟩], []⟩ : BuildStore ℕ) < nd.node_id →
        (∀ nd' ∈ (recursive_cluster_node demo_oracle 1 2 5 0 [101, 202] [0, 1] 1 0 2
          ⟨[⟨1, none, 0, 2, 0, none, []⟩], []⟩).1.nodes,
          nd'.parent_id ≠ some nd.node_id) →
        ∃ p, (p, nd.node_id) ∈ dl))) :=
  ⟨demo_oracle_valid, by decide, by decide, by decide,
    by
      intro nd hnd j hj
      simp only [List.mem_singleton] at hnd
      subst hnd
      simp at hj,
    c8_leaf_iff_returns_one demo_oracle 1 2 5 0 [101, 202] [0, 1] 1 0 2
      ⟨[⟨1, none, 0, 2, 0, none, []⟩], []⟩ demo_oracle_valid (by decide) (by decide)
      (by decide)
      (by
        intro nd hnd j hj
        simp only [List.mem_singleton] at hnd
        subst hnd
        simp at hj)⟩

lemma run_eq_build {α : Type} (o : ClusterOracle α) (lt mk md : ℕ) (ms : ℚ)
    (pages_and_vectors : List (ℕ × α)) (st : BuildStore α)
    (h0 : ¬ pages_and_vectors.length = 0) (h1 : ¬ pages_and_vectors.length < mk) :
    run_recursive_clustering o lt mk md ms pages_and_vectors st =
      recursive_cluster_node o lt mk md ms (pages_and_vectors.map Prod.fst)
        (pages_and_vectors.map Prod.snd) (get_cluster_tree_max_node_id st + 1) 0
        pages_and_vectors.length
        (insert_cluster_tree_node st
          ⟨get_cluster_tree_max_node_id st + 1, none, 0, pages_and_vectors.length,
            0, none, []⟩) := by
  rw [run_recursive_clustering]
  simp only [if_neg h0, if_neg h1]

/-- Claim C4 amended: after `build_tree` on a namespace meeting the
precondition, provided the root was split (the top-level recursive call
did not return 1), every document with a reduced vector receives exactly
one membership write, and each write targets a node of the built tree
that has no children in the final store; when the root itself terminates
as a leaf no assignment is written at all (see the counterexample). -/
theorem c4_amended_assignments_partition {α : Type} (o : ClusterOracle α)
    (leaf_target max_k max_depth : ℕ) (min_silhouette_threshold : ℚ)
    (pages_and_vectors : List (ℕ × α)) (st : BuildStore α)
    (HO : OracleValid o)
    (hwf : ∀ nd ∈ st.nodes, ∀ j ∈ nd.parent_id, j ≤ get_cluster_tree_max_node_id st)
    (hk : max_k ≤ pages_and_vectors.length)
    (hne : pages_and_vectors ≠ [])
    (hsplit : (run_recursive_clustering o leaf_target max_k max_depth
      min_silhouette_threshold pages_and_vectors st).2 ≠ 1) :
    ∃ dl, (run_recursive_clustering o leaf_target max_k max_depth
        min_silhouette_threshold pages_and_vectors st).1.assigns =
        st.assigns ++ dl ∧
      List.Perm (dl.map Prod.fst) (pages_and_vectors.map Prod.fst) ∧
      ∀ pm ∈ dl,
        pm.2 ∈ (run_recursive_clustering o leaf_target max_k max_depth
          min_silhouette_threshold pages_and_vectors st).1.nodes.map
            (fun nd => nd.node_id) ∧
        ∀ nd ∈ (run_recursive_clustering o leaf_target max_k max_depth
          min_silhouette_threshold pages_and_vectors st).1.nodes,
          nd.parent_id ≠ some pm.2 := by
  have h0 : ¬ pages_and_vectors.length = 0 := by
    intro he
    exact hne (List.length_eq_zero.mp he)
  have h1 : ¬ pages_and_vectors.length < max_k := by omega
  have hrun := run_eq_build o leaf_target max_k max_depth min_silhouette_threshold
    pages_and_vectors st h0 h1
  rw [hrun] at hsplit ⊢
  set root : ClusterTreeNode α :=
    ⟨get_cluster_tree_max_node_id st + 1, none, 0, pages_and_vectors.length, 0,
      none, []⟩ with hroot
  set st1 := insert_cluster_tree_node st root with hst1
  have hm1 : get_cluster_tree_max_node_id st1 =
      get_cluster_tree_max_node_id st + 1 := by
    rw [hst1, max_node_id_insert]
    refine max_eq_right ?_
    show get_cluster_tree_max_node_id st ≤ get_cluster_tree_max_node_id st + 1
    omega
  obtain ⟨dl, sk, A1, A2, A3, A4, A5, A6, A7, A8, A9, A10, A11, A12⟩ :=
    recursive_cluster_node_master o leaf_target max_k max_depth
      min_silhouette_threshold HO (pages_and_vectors.map Prod.fst)
      (pages_and_vectors.map Prod.snd) (get_cluster_tree_max_node_id st + 1) 0
      pages_and_vectors.length st1 (by simp) (by simp) (le_of_eq hm1.symm)
  refine ⟨dl, ?_, A8 hsplit, ?_⟩
  · rw [A1, hst1, assigns_insert]
  · intro pm hpm
    obtain ⟨hin, hnpar⟩ := A9 pm hpm
    obtain ⟨s0, hs0, hs0eq⟩ := List.mem_map.mp hin
    have hb := A3 s0 hs0
    rw [hm1] at hb
    constructor
    · rw [map_node_id_eq_skel_fst, A2, List.map_append]
      exact List.mem_append_right _ hin
    · intro nd hnd
      have hpair : (nd.node_id, nd.parent_id) ∈ skel st1 ++ sk := by
        rw [← A2]
        exact mem_skel_of_mem_nodes hnd
      rw [hst1, skel_insert] at hpair
      rcases List.mem_append.mp hpair with hold' | hnew
      · rcases List.mem_append.mp hold' with hold | hrootp
        · obtain ⟨nd0, hnd0, heq⟩ := List.mem_map.mp hold
          have hpar : nd.parent_id = nd0.parent_id := (congrArg Prod.snd heq).symm
          rw [hpar]
          intro hcon
          have := hwf nd0 hnd0 pm.2 (by rw [hcon]; rfl)
          omega
        · have : nd.parent_id = none := by
            simp only [List.mem_singleton] at hrootp
            exact (congrArg Prod.snd hrootp)
          rw [this]
          simp
      · exact hnpar _ hnew

/-- Witness for the amended C4: the two-document build that splits the
root assigns each of the documents 101 and 202 exactly once, to a
childless node of the built tree. -/
theorem c4_amended_assignments_partition_witness :
    OracleValid demo_oracle ∧
    (∀ nd ∈ (⟨[], []⟩ : BuildStore ℕ).nodes, ∀ j ∈ nd.parent_id,
      j ≤ get_cluster_tree_max_node_id (⟨[], []⟩ : BuildStore ℕ)) ∧
    2 ≤ ([((101 : ℕ), (0 : ℕ)), (202, 1)] : List (ℕ × ℕ)).length ∧
    ([((101 : ℕ), (0 : ℕ)), (202, 1)] : List (ℕ × ℕ)) ≠ [] ∧
    (run_recursive_clustering demo_oracle 1 2 5 0 [(101, 0), (202, 1)]
      ⟨[], []⟩).2 ≠ 1 ∧
    ∃ dl, (run_recursive_clustering demo_oracle 1 2 5 0 [(101, 0), (202, 1)]
        ⟨[], []⟩).1.assigns = (⟨[], []⟩ : BuildStore ℕ).assigns ++ dl ∧
      List.Perm (dl.map Prod.fst)
        (([((101 : ℕ), (0 : ℕ)), (202, 1)] : List (ℕ × ℕ)).map Prod.fst) ∧
      ∀ pm ∈ dl,
        pm.2 ∈ (run_recursive_clustering demo_oracle 1 2 5 0 [(101, 0), (202, 1)]
          ⟨[], []⟩).1.nodes.map (fun nd => nd.node_id) ∧
        ∀ nd ∈ (run_recursive_clustering demo_oracle 1 2 5 0 [(101, 0), (202, 1)]
          ⟨[], []⟩).1.nodes, nd.parent_id ≠ some pm.2 := by
  have hsplit : (run_recursive_clustering demo_oracle 1 2 5 0 [(101, 0), (202, 1)]
      (⟨[], []⟩ : BuildStore ℕ)).2 ≠ 1 := by
    simp [run_recursive_clustering, recursive_cluster_node, process_clusters,
      demo_oracle, select_cluster, insert_cluster_tree_node,
      get_cluster_tree_max_node_id, set_node_centroid,
      update_cluster_tree_child_count, update_cluster_tree_assignments,
      List.range_succ]
    norm_num
  refine ⟨demo_oracle_valid, by simp, by decide, by decide, hsplit,
    c4_amended_assignments_partition demo_oracle 1 2 5 0 [(101, 0), (202, 1)]
      ⟨[], []⟩ demo_oracle_valid (by simp) (by decide) (by decide) hsplit⟩
